import Mathlib

/-!
Shallow embedding of the ipp-treatment.fyi calculation engine
(src/js/calculator.js and src/js/stages.js) and verification of its
specification claims.

Modelling conventions:
* JavaScript numbers are modelled as rationals (`ℚ`); the single use of
  `Math.pow` with the real exponent 0.9 (calculator.js line 112) forces the
  effectiveness-metric pipeline into `ℝ` with `Real.rpow`.
* JavaScript objects used as string-keyed maps are modelled as functions
  `String → Option _`; arrays as lists.
* `Math.round` rounds half toward positive infinity, i.e. `⌊x + 1/2⌋`.
* JavaScript truthiness tests on optional numeric fields (`adjustments.age65`,
  `interaction.ci`, `interaction.rate`, `s.factor || 1`) are modelled
  explicitly: the value 0 and an absent value are both falsy.
* Exceptions (`throw new Error(...)`) are modelled with `Except String`.
* Division by zero is total in `ℚ` (`x / 0 = 0`) whereas JavaScript produces
  `Infinity`; the two differ only for degenerate reference data
  (`dosePerKg = 0` or `weight = 0`), which the data model excludes, and no
  theorem below depends on that case.
-/

namespace IPP

/-- JavaScript `Math.round`: round half toward positive infinity. -/
def jround (q : ℚ) : ℤ := ⌊q + 1/2⌋

/-- Rounding to two decimal places: `Math.round(x * 100) / 100`. -/
def round2 (q : ℚ) : ℚ := (jround (q * 100) : ℚ) / 100

/-- JavaScript truthiness of an optional number: `undefined` and `0` are falsy. -/
def numTruthy (o : Option ℚ) : Bool :=
  match o with
  | some q => decide (q ≠ 0)
  | none => false

/-- JavaScript `o || absent`: keep an optional number only when truthy. -/
def numOptTruthy (o : Option ℚ) : Option ℚ :=
  match o with
  | some q => if q = 0 then none else some q
  | none => none

/-- JavaScript `q || 1` on a numeric field: 0 falls back to 1. -/
def jsOrOne (q : ℚ) : ℚ := if q = 0 then 1 else q

/-- Pharmacokinetic record; only the fields the engine reads
(`f`, `vd`, `kp`) are modelled. -/
structure Pharmacokinetics where
  f : ℚ
  vd : ℚ
  kp : ℚ
deriving Repr, DecidableEq

/-- Pharmacodynamic percentages of a component. -/
structure Pharmacodynamics where
  tgfReduction : ℚ := 0
  collagenReduction : ℚ := 0
  curvatureReduction : ℚ := 0
  plaqueReduction : ℚ := 0
  painRelief : ℚ := 0
  successRate : ℚ := 0
deriving Repr, DecidableEq

/-- Declared patient-factor dose adjustments; an absent entry means the
component declares no adjustment for that factor. -/
structure Adjustments where
  age65 : Option ℚ := none
  bmi30 : Option ℚ := none
  smoking : Option ℚ := none
  crCl30 : Option ℚ := none
  childB : Option ℚ := none
deriving Repr, DecidableEq

/-- Safe dose range in mg. -/
structure SafeRange where
  min : ℚ
  max : ℚ
deriving Repr, DecidableEq

/-- A therapeutic component record from components.json. -/
structure Component where
  name : String := ""
  dosePerKg : ℚ
  frequency : String := ""
  route : String := ""
  timing : List String := []
  unit : String := ""
  pharmacokinetics : Pharmacokinetics
  pharmacodynamics : Pharmacodynamics
  adjustments : Adjustments := {}
  safeRange : Option SafeRange := none
deriving Repr, DecidableEq

/-- `componentsData`: the component store, keyed by component id. -/
structure ComponentsData where
  components : String → Option Component

/-- A pairwise interaction record from interactions.json. -/
structure Interaction where
  type : String
  factor : ℚ
  mechanism : String := ""
  significance : String
  verification : String := ""
  ci : Option ℚ := none
  rate : Option ℚ := none
deriving Repr, DecidableEq

/-- The result of `InteractionEngine.processInteraction`. -/
structure ProcessedInteraction where
  type : String
  factor : ℚ
  mechanism : String
  significance : String
  verification : String
  combinationIndex : Option ℚ
  interpretation : Option String
  regenerationRate : Option ℚ
  regenerationFactor : Option ℚ
deriving Repr, DecidableEq, Inhabited

/-- `interactionsData`: pairwise records keyed `A_B`, plus the
`synergyCalculation.interpretation` label table. -/
structure InteractionsData where
  drugInteractions : String → Option Interaction
  interpretation : String → Option String

/-- A per-stage protocol record from stages.json. -/
structure StageProtocol where
  name : String := ""
  timeframe : String := ""
  duration : String
  durationUnit : String := "months"
  description : String := ""
  characteristics : List String := []
  coreComponents : List String
  optionalComponents : List String := []
  contraindicated : List String := []
  successBase : ℚ
  specialConsiderations : List String := []
  verification : String := ""
deriving Repr, DecidableEq

/-- `stagesData`: stage protocols keyed by stage id. -/
structure StagesData where
  stageProtocols : String → Option StageProtocol

/-- A transient patient profile. -/
structure PatientProfile where
  weight : ℚ
  height : ℚ := 0
  age : ℚ
  bmi : ℚ
  smoking : Bool
  creatinineClearance : ℚ
  liverFunction : String
  stage : String
  hasPlaque : Bool := false
  hasCalcification : Bool := false
  curvature : ℚ := 0
deriving Repr, DecidableEq

/-- The record returned by `DosingEngine.calculateComponentDose`
(display-rounded fields, as in stages.js lines 375-385). -/
structure DoseResult where
  baseDose : ℤ
  adjustmentFactor : ℚ
  adjustedDose : ℤ
  effectiveDose : ℚ
  tissueDose : ℚ
  frequency : String
  timing : List String
  unit : String
  route : String
deriving Repr, DecidableEq, Inhabited

/-- `baseDose = component.dosePerKg * patientProfile.weight`. -/
def baseDoseVal (c : Component) (p : PatientProfile) : ℚ :=
  c.dosePerKg * p.weight

/-- One step of the sequential adjustment-factor construction:
multiply in a declared factor when the predicate holds and the declared
value is truthy (a declared 0 is falsy in JavaScript and is skipped). -/
def adjStep (cond : Bool) (adj : Option ℚ) (f : ℚ) : ℚ :=
  match adj with
  | some a => if cond = true ∧ a ≠ 0 then f * a else f
  | none => f

/-- The unrounded `adjustmentFactor` of `calculateComponentDose`
(stages.js lines 335-361), applying age, BMI, smoking, creatinine-clearance
and liver adjustments in source order. -/
def adjustmentFactorVal (c : Component) (p : PatientProfile) : ℚ :=
  adjStep (decide (p.liverFunction = "childB")) c.adjustments.childB
    (adjStep (decide (p.creatinineClearance ≤ 50)) c.adjustments.crCl30
      (adjStep p.smoking c.adjustments.smoking
        (adjStep (decide (30 ≤ p.bmi)) c.adjustments.bmi30
          (adjStep (decide (65 ≤ p.age)) c.adjustments.age65 1))))

/-- The unrounded `adjustedDose = baseDose * adjustmentFactor`. -/
def adjustedDoseVal (c : Component) (p : PatientProfile) : ℚ :=
  baseDoseVal c p * adjustmentFactorVal c p

/-- The unrounded `effectiveDose = adjustedDose * (f / 100)`. -/
def effectiveDoseVal (c : Component) (p : PatientProfile) : ℚ :=
  adjustedDoseVal c p * (c.pharmacokinetics.f / 100)

/-- `calculateTissueDistribution`: one-compartment tissue estimate. -/
def tissueDoseVal (c : Component) (p : PatientProfile) : ℚ :=
  effectiveDoseVal c p / (c.pharmacokinetics.vd * p.weight) * c.pharmacokinetics.kp

/-- The `DoseResult` record built by `calculateComponentDose` for a component
found in the store: mg amounts rounded to integers, fractional fields to two
decimal places. -/
def componentDoseResult (c : Component) (p : PatientProfile) : DoseResult where
  baseDose := jround (baseDoseVal c p)
  adjustmentFactor := round2 (adjustmentFactorVal c p)
  adjustedDose := jround (adjustedDoseVal c p)
  effectiveDose := round2 (effectiveDoseVal c p)
  tissueDose := round2 (tissueDoseVal c p)
  frequency := c.frequency
  timing := c.timing
  unit := c.unit
  route := c.route

/-- `DosingEngine.calculateComponentDose`: throws on an unknown id
(stages.js lines 326-329), otherwise returns the rounded dose record. -/
def calculateComponentDose (cd : ComponentsData) (id : String)
    (p : PatientProfile) : Except String DoseResult :=
  match cd.components id with
  | none => .error ("Component " ++ id ++ " not found")
  | some c => .ok (componentDoseResult c p)

/-- The applicable declared factors as read by the code: a factor enters the
product when its predicate holds and the declared value is nonzero. -/
def adjList (cond : Bool) (adj : Option ℚ) : List ℚ :=
  match adj with
  | some a => if cond = true ∧ a ≠ 0 then [a] else []
  | none => []

/-- Specification-side list of the adjustment factors that actually apply
to a component under a profile (truthiness included). -/
def applicableAdjFactors (c : Component) (p : PatientProfile) : List ℚ :=
  adjList (decide (65 ≤ p.age)) c.adjustments.age65 ++
  adjList (decide (30 ≤ p.bmi)) c.adjustments.bmi30 ++
  adjList p.smoking c.adjustments.smoking ++
  adjList (decide (p.creatinineClearance ≤ 50)) c.adjustments.crCl30 ++
  adjList (decide (p.liverFunction = "childB")) c.adjustments.childB

/-- The claim's reading of the applicable factors: every declared factor
whose predicate holds, with no truthiness test on the declared value. -/
def declaredAdjList (cond : Bool) (adj : Option ℚ) : List ℚ :=
  match adj with
  | some a => if cond = true then [a] else []
  | none => []

/-- The claimed product basis: all declared factors whose predicate holds,
including a declared value of 0. -/
def declaredApplicableFactors (c : Component) (p : PatientProfile) : List ℚ :=
  declaredAdjList (decide (65 ≤ p.age)) c.adjustments.age65 ++
  declaredAdjList (decide (30 ≤ p.bmi)) c.adjustments.bmi30 ++
  declaredAdjList p.smoking c.adjustments.smoking ++
  declaredAdjList (decide (p.creatinineClearance ≤ 50)) c.adjustments.crCl30 ++
  declaredAdjList (decide (p.liverFunction = "childB")) c.adjustments.childB

/-- The dose-range result of `DosingEngine.validateDoseRange`: a structured
value, never an exception. -/
structure DoseRangeResult where
  valid : Bool
  error : Option String := none
  warning : Option String := none
deriving Repr, DecidableEq

/-- The hardcoded fallback safe-range table of `validateDoseRange`. -/
def defaultRanges (id : String) : Option SafeRange :=
  if id = "l-carnitine" then some ⟨500, 3000⟩
  else if id = "coq10" then some ⟨100, 200⟩
  else if id = "propolis" then some ⟨600, 700⟩
  else if id = "ginkgo" then some ⟨240, 320⟩
  else if id = "bilberry" then some ⟨160, 320⟩
  else if id = "silymarin" then some ⟨400, 400⟩
  else if id = "vitamin-e" then some ⟨600, 800⟩
  else if id = "vitamin-c" then some ⟨750, 1500⟩
  else if id = "sod" then some ⟨140, 140⟩
  else if id = "boswellia" then some ⟨200, 300⟩
  else if id = "pentoxifylline" then some ⟨400, 800⟩
  else if id = "diclofenac" then some ⟨3000, 3000⟩
  else none

/-- `DosingEngine.validateDoseRange` (stages.js lines 414-452): returns a
structured invalid result (not an exception) for an unknown id; otherwise
compares against the data-defined safe range, falling back to the internal
table. Number formatting inside messages is abstracted by `toString`. -/
def validateDoseRange (cd : ComponentsData) (id : String)
    (calculatedDose : ℚ) : DoseRangeResult :=
  match cd.components id with
  | none => { valid := false, error := some "Component not found" }
  | some c =>
    match c.safeRange <|> defaultRanges id with
    | none => { valid := true, warning := some "No established range" }
    | some r =>
      if calculatedDose < r.min then
        { valid := false
          error := some ("Dose " ++ toString calculatedDose ++
            "mg below minimum safe range (" ++ toString r.min ++ "mg)") }
      else if r.max < calculatedDose then
        { valid := false
          error := some ("Dose " ++ toString calculatedDose ++
            "mg exceeds maximum safe range (" ++ toString r.max ++ "mg)") }
      else { valid := true }

/-! ## Interaction engine (stages.js lines 1124-1326) -/

/-- `InteractionEngine.interpretCombinationIndex` (stages.js lines
1178-1191): an if-chain over the combination index, looking the selected
bucket up in the reference interpretation table. -/
def interpretCombinationIndex (idata : InteractionsData) (ci : ℚ) : Option String :=
  if ci < 1/10 then idata.interpretation "CI < 0.1"
  else if ci ≤ 3/10 then idata.interpretation "0.1-0.3"
  else if ci ≤ 7/10 then idata.interpretation "0.3-0.7"
  else if ci ≤ 85/100 then idata.interpretation "0.7-0.85"
  else if ci ≤ 90/100 then idata.interpretation "0.85-0.90"
  else if ci ≤ 110/100 then idata.interpretation "0.90-1.10"
  else if ci ≤ 120/100 then idata.interpretation "1.10-1.20"
  else if ci ≤ 145/100 then idata.interpretation "1.20-1.45"
  else if ci ≤ 33/10 then idata.interpretation "1.45-3.3"
  else idata.interpretation "> 3.3"

/-- The bucket key selected by the if-chain of `interpretCombinationIndex`. -/
def ciBucketKey (ci : ℚ) : String :=
  if ci < 1/10 then "CI < 0.1"
  else if ci ≤ 3/10 then "0.1-0.3"
  else if ci ≤ 7/10 then "0.3-0.7"
  else if ci ≤ 85/100 then "0.7-0.85"
  else if ci ≤ 90/100 then "0.85-0.90"
  else if ci ≤ 110/100 then "0.90-1.10"
  else if ci ≤ 120/100 then "1.10-1.20"
  else if ci ≤ 145/100 then "1.20-1.45"
  else if ci ≤ 33/10 then "1.45-3.3"
  else "> 3.3"

/-- `InteractionEngine.calculateRegenerationFactor`: fixed thresholds. -/
def calculateRegenerationFactor (rate : ℚ) : ℚ :=
  if 100000 < rate then 5/2
  else if 10000 < rate then 2
  else if 1000 < rate then 3/2
  else if 100 < rate then 6/5
  else 11/10

/-- `InteractionEngine.processInteraction`: passes the interaction through,
attaching a combination-index interpretation when `ci` is truthy and a
regeneration factor when the type is regeneration with a truthy rate. -/
def processInteraction (idata : InteractionsData) (i : Interaction) :
    ProcessedInteraction :=
  let ciT := numOptTruthy i.ci
  let rateT := if i.type = "regeneration" then numOptTruthy i.rate else none
  { type := i.type
    factor := i.factor
    mechanism := i.mechanism
    significance := i.significance
    verification := i.verification
    combinationIndex := ciT
    interpretation := ciT.bind (interpretCombinationIndex idata)
    regenerationRate := rateT
    regenerationFactor := rateT.map calculateRegenerationFactor }

/-- All index pairs `(i, j)` with `i < j`, in the nested-loop order of
`calculateSynergies`. -/
def listPairs {α : Type} : List α → List (α × α)
  | [] => []
  | x :: xs => xs.map (fun y => (x, y)) ++ listPairs xs

/-- `InteractionEngine.calculateSynergies` (stages.js lines 1129-1152):
for every unordered pair of selected ids, an order-insensitive lookup keyed
`A_B` or `B_A`; pairs with no record are omitted. The JavaScript result is a
string-keyed object; it is modelled as the association list of its entries
(selections are sets, so pair keys are distinct). -/
def calculateSynergies (idata : InteractionsData) (sel : List String) :
    List (String × ProcessedInteraction) :=
  (listPairs sel).filterMap (fun ab =>
    match idata.drugInteractions (ab.1 ++ "_" ++ ab.2) <|>
          idata.drugInteractions (ab.2 ++ "_" ++ ab.1) with
    | some i => some (ab.1 ++ "-" ++ ab.2, processInteraction idata i)
    | none => none)

/-- `InteractionEngine.calculateOverallSynergyFactor` (stages.js lines
1203-1227): the reporting variant, with caps 2.0 / 1.5, diminishing-returns
exponents and a final cap of 3. -/
def calculateOverallSynergyFactor
    (synergies : List (String × ProcessedInteraction)) : ℚ :=
  let st := (synergies.map Prod.snd).foldl
    (fun (acc : ℚ × ℕ × ℕ) s =>
      if s.significance = "high" then (acc.1 * min s.factor 2, acc.2.1 + 1, acc.2.2)
      else if s.significance = "moderate" then
        (acc.1 * min s.factor (3/2), acc.2.1, acc.2.2 + 1)
      else acc) (1, 0, 0)
  let f1 := if 1 < st.2.1 then st.1 * (9/10) ^ (st.2.1 - 1) else st.1
  let f2 := if 2 < st.2.2 then f1 * (19/20) ^ (st.2.2 - 2) else f1
  min f2 3

/-- Specification closed form of the reporting synergy factor: products over
the high- and moderate-significance sublists, the two diminishing-returns
corrections, and the cap at 3. -/
def overallSynergyFactorSpec (l : List ProcessedInteraction) : ℚ :=
  let highs := l.filter (fun s => decide (s.significance = "high"))
  let mods := l.filter (fun s => decide (s.significance = "moderate"))
  let base := (highs.map (fun s => min s.factor 2)).prod *
              (mods.map (fun s => min s.factor (3/2))).prod
  let b1 := if 1 < highs.length then base * (9/10) ^ (highs.length - 1) else base
  let b2 := if 2 < mods.length then b1 * (19/20) ^ (mods.length - 2) else b1
  min b2 3

/-! ## Stage engine (stages.js lines 2-317) -/

/-- The record returned by `StageEngine.getRecommendations`. -/
structure StageRecommendation where
  stageName : String
  timeframe : String
  duration : String
  description : String
  characteristics : List String
  coreComponents : List String
  optionalComponents : List String
  contraindicated : List String
  specialConsiderations : List String
  expectedSuccessRate : ℚ
  verification : String
deriving Repr, DecidableEq, Inhabited

/-- `StageEngine.getRecommendations` (stages.js lines 7-44): throws on an
unknown stage id; for the acute stage with a profile present, overrides the
duration for calcification (18-36) or plaque (6-24) and appends the
injectable-therapy consideration; the returned duration field is the chosen
range joined with the duration unit. -/
def getRecommendations (sd : StagesData) (stageId : String)
    (pOpt : Option PatientProfile) : Except String StageRecommendation :=
  match sd.stageProtocols stageId with
  | none => .error ("Stage " ++ stageId ++ " not found")
  | some stage =>
    let ds :=
      match pOpt with
      | some p =>
        if stageId = "acute" then
          ((if p.hasCalcification then "18-36"
            else if p.hasPlaque then "6-24" else stage.duration),
           (if p.hasPlaque ∨ p.hasCalcification then
              stage.specialConsiderations ++
                ["Injectable therapy mandatory: biweekly for 6 months, then monthly for 12 months"]
            else stage.specialConsiderations))
        else (stage.duration, stage.specialConsiderations)
      | none => (stage.duration, stage.specialConsiderations)
    .ok
      { stageName := stage.name
        timeframe := stage.timeframe
        duration := ds.1 ++ " " ++ stage.durationUnit
        description := stage.description
        characteristics := stage.characteristics
        coreComponents := stage.coreComponents
        optionalComponents := stage.optionalComponents
        contraindicated := stage.contraindicated
        specialConsiderations := ds.2
        expectedSuccessRate := stage.successBase
        verification := stage.verification }

/-- The effectiveness record; real-valued because of the `value ^ 0.9`
blend step of the aggregation engine. -/
structure Effectiveness where
  tgfReduction : ℝ
  collagenReduction : ℝ
  curvatureReduction : ℝ
  plaqueReduction : ℝ
  painRelief : ℝ
  overallSuccessRate : ℝ
deriving Inhabited

/-- `StageEngine._calculateAcuteStageMultiplier` (stages.js lines 97-116):
returns the stage multiplier together with the effectiveness record whose
collagen and plaque metrics it scales in place. -/
noncomputable def calcAcuteStageMultiplier (sel : List String) (pOpt : Option PatientProfile)
    (e : Effectiveness) : ℝ × Effectiveness :=
  let m : ℝ := if sel.contains "vitamin-c" ∨ sel.contains "vitamin-e" then 1.25 else 1
  let e1 := { e with collagenReduction := e.collagenReduction * 0.8 }
  let e2 := { e1 with plaqueReduction := e1.plaqueReduction * 0.7 }
  match pOpt with
  | some p =>
    if p.hasPlaque ∨ p.hasCalcification then
      (m * 1.3, { e2 with plaqueReduction := e2.plaqueReduction * 1.2 })
    else (m, e2)
  | none => (m, e2)

/-- `StageEngine._calculateChronicStageMultiplier` (stages.js lines 118-125):
1.15 when at least 80 percent of the stage core list is selected, else 0.9. -/
noncomputable def calcChronicStageMultiplier (sel : List String) (stage : StageProtocol) : ℝ :=
  let present := (stage.coreComponents.filter (fun c => sel.contains c)).length
  if (stage.coreComponents.length : ℝ) * 0.8 ≤ (present : ℝ) then 1.15 else 0.9

/-- `StageEngine._getStageMultiplier` (stages.js lines 87-95). -/
noncomputable def getStageMultiplier (stageId : String) (sel : List String)
    (stage : StageProtocol) (pOpt : Option PatientProfile) (e : Effectiveness) :
    ℝ × Effectiveness :=
  if stageId = "acute" then calcAcuteStageMultiplier sel pOpt e
  else if stageId = "chronic" then (calcChronicStageMultiplier sel stage, e)
  else (1, e)

/-- `StageEngine._applyPatientProfileAdjustments` (stages.js lines 127-146):
calcification with pentoxifylline boosts plaque and curvature metrics and the
multiplier; curvature above 60 degrees (a truthy nonzero value, equivalent to
`60 < curvature`) scales the multiplier by selection size and boosts pain
relief. -/
noncomputable def applyPatientProfileAdjustments (pOpt : Option PatientProfile)
    (sel : List String) (e : Effectiveness) (m : ℝ) : ℝ × Effectiveness :=
  match pOpt with
  | none => (m, e)
  | some p =>
    let s1 :=
      if p.hasCalcification ∧ sel.contains "pentoxifylline" then
        (m * 1.2,
         { e with plaqueReduction := e.plaqueReduction * 1.5
                  curvatureReduction := e.curvatureReduction * 1.3 })
      else (m, e)
    if 60 < p.curvature then
      (s1.1 * (if 10 ≤ sel.length then 1.1 else 0.85),
       { s1.2 with painRelief := s1.2.painRelief * 1.2 })
    else s1

/-- `StageEngine._applyMultiplierToEffectiveness` (stages.js lines 148-157):
every numeric field of the record, the response potential included, is
multiplied by the stage multiplier and capped at 100. -/
noncomputable def applyMultiplierToEffectiveness (e : Effectiveness) (m : ℝ) : Effectiveness where
  tgfReduction := min (e.tgfReduction * m) 100
  collagenReduction := min (e.collagenReduction * m) 100
  curvatureReduction := min (e.curvatureReduction * m) 100
  plaqueReduction := min (e.plaqueReduction * m) 100
  painRelief := min (e.painRelief * m) 100
  overallSuccessRate := min (e.overallSuccessRate * m) 100

/-- `StageEngine.calculateStageSpecificEffectiveness` (stages.js lines
75-85): works on a fresh copy of the effectiveness record. -/
noncomputable def calculateStageSpecificEffectiveness (sd : StagesData) (stageId : String)
    (sel : List String) (e : Effectiveness) (pOpt : Option PatientProfile) :
    Effectiveness :=
  match sd.stageProtocols stageId with
  | none => e
  | some stage =>
    let s1 := getStageMultiplier stageId sel stage pOpt e
    let s2 := applyPatientProfileAdjustments pOpt sel s1.2 s1.1
    applyMultiplierToEffectiveness s2.2 s2.1

/-! ## Aggregation engine (calculator.js) -/

/-- The calculator object: the three reference data stores and the
initialization flag set by `initialize()`. -/
structure Calculator where
  componentsData : ComponentsData
  interactionsData : InteractionsData
  stagesData : StagesData
  ready : Bool

/-- The bounded synergy-blend factor inside `aggregateMetric`
(calculator.js lines 100-109): caps 1.6 / 1.3 on truthy factors, exponents
bounded by 10, final clamp to [0.5, 1.8]. -/
def blendSynergyFactor (synergies : List (String × ProcessedInteraction)) : ℚ :=
  let st := (synergies.map Prod.snd).foldl
    (fun (acc : ℚ × ℕ × ℕ) s =>
      if s.significance = "high" then
        (acc.1 * min (jsOrOne s.factor) (8/5), acc.2.1 + 1, acc.2.2)
      else if s.significance = "moderate" then
        (acc.1 * min (jsOrOne s.factor) (13/10), acc.2.1, acc.2.2 + 1)
      else acc) (1, 0, 0)
  let f1 := if 1 < st.2.1 then st.1 * (9/10) ^ (min (st.2.1 - 1) 10) else st.1
  let f2 := if 2 < st.2.2 then f1 * (19/20) ^ (min (st.2.2 - 2) 10) else f1
  max (1/2) (min f2 (9/5))

/-- `aggregateMetric` (calculator.js lines 87-114) for one pharmacodynamic
selector `g`. Unknown selected ids are skipped; the dose ratio uses the
display-rounded `adjustedDose` field of the `DoseResult` computed by the
dosing engine for this component (the `doses` map of `calculateDosing` is
inlined: it holds exactly `componentDoseResult c p` for each found id). -/
noncomputable def aggregateMetric (cd : ComponentsData) (sel : List String)
    (synergies : List (String × ProcessedInteraction)) (p : PatientProfile)
    (g : Pharmacodynamics → ℚ) : ℝ :=
  let product : ℚ := sel.foldl
    (fun acc id =>
      match cd.components id with
      | none => acc
      | some c =>
        let base := g c.pharmacodynamics
        let w := max 0 (min 2 (((componentDoseResult c p).adjustedDose : ℚ) /
          (c.dosePerKg * p.weight)))
        let contribution := max 0 (min 1 (base / 100 * w))
        acc * (1 - contribution)) 1
  let value : ℚ := max 0 (100 * (1 - product))
  let osf : ℚ := blendSynergyFactor synergies
  let blend : ℚ := 85/100 + 15/100 * max 0 (min ((osf - 1) / (8/10)) 1)
  max 0 (min 100 ((value : ℝ) ^ ((9 : ℝ)/10) * (blend : ℝ)))

/-- The response potential of `calculateOverallEffectiveness`
(calculator.js lines 122-137): note the synergy term
`0.9 + 0.1 (boost − 1)/0.6` carries no inner clamp, and the liver penalty
requires a truthy (non-empty) non-normal value. -/
def responsePotentialVal (sd : StagesData) (sel : List String)
    (synergies : List (String × ProcessedInteraction)) (p : PatientProfile) : ℚ :=
  let stageOpt := sd.stageProtocols p.stage
  let baseSuccess := (stageOpt.map (fun s => s.successBase)).getD 70
  let core := (stageOpt.map (fun s => s.coreComponents)).getD []
  let covered := (sel.filter (fun c => core.contains c)).length
  let coverageRatio : ℚ :=
    if core.length = 0 then 1/2 else (covered : ℚ) / (core.length : ℚ)
  let boost := (synergies.map Prod.snd).foldl
    (fun a s => a * min (jsOrOne s.factor) (3/2)) 1
  let synergyBoost := min boost (8/5)
  let penalty : ℚ :=
    (if 65 ≤ p.age then 10 else 0) + (if 30 ≤ p.bmi then 5 else 0) +
    (if p.smoking then 5 else 0) +
    (if p.creatinineClearance < 30 then 10 else 0) +
    (if p.liverFunction ≠ "" ∧ p.liverFunction ≠ "normal" then 10 else 0)
  max 0 (min 95
    (baseSuccess * coverageRatio * (9/10 + 1/10 * (synergyBoost - 1) / (6/10)) - penalty))

/-- `PeyronieMedicalCalculator.calculateOverallEffectiveness`
(calculator.js lines 85-147). -/
noncomputable def calculateOverallEffectiveness (pc : Calculator) (sel : List String)
    (synergies : List (String × ProcessedInteraction)) (p : PatientProfile) :
    Effectiveness where
  tgfReduction := aggregateMetric pc.componentsData sel synergies p (fun d => d.tgfReduction)
  collagenReduction := aggregateMetric pc.componentsData sel synergies p (fun d => d.collagenReduction)
  curvatureReduction := aggregateMetric pc.componentsData sel synergies p (fun d => d.curvatureReduction)
  plaqueReduction := aggregateMetric pc.componentsData sel synergies p (fun d => d.plaqueReduction)
  painRelief := aggregateMetric pc.componentsData sel synergies p (fun d => d.painRelief)
  overallSuccessRate := (responsePotentialVal pc.stagesData sel synergies p : ℝ)

/-- `PeyronieMedicalCalculator.generateWarnings` (calculator.js lines
149-187): a pure rule list over the profile and selection. -/
def generateWarnings (p : PatientProfile) (sel : List String) : List String :=
  (if 65 ≤ p.age then
    ["Elderly patient: Consider reduced dosing for some components"] else []) ++
  (if 30 ≤ p.bmi then
    ["Obesity may require dose adjustments for fat-soluble compounds"] else []) ++
  (if p.creatinineClearance < 30 then
    ["Severe kidney impairment: Dose reductions required"] else []) ++
  (if p.liverFunction = "childB" then
    ["Liver impairment: Significant dose adjustments needed"] else []) ++
  (if p.stage = "acute" ∧ p.hasPlaque then
    ["Acute phase with established plaque: Full protocol recommended"] else []) ++
  (if sel.contains "pentoxifylline" ∧ p.creatinineClearance < 30 then
    ["Pentoxifylline: 50% dose reduction required for severe kidney impairment"] else []) ++
  (if sel.contains "diclofenac" ∧ p.liverFunction ≠ "normal" then
    ["Diclofenac: Use with caution in liver impairment"] else [])

/-- The record returned by `calculateDosing`. -/
structure DosingResultRec where
  componentDoses : List (String × DoseResult)
  synergyEffects : List (String × ProcessedInteraction)
  effectiveness : Effectiveness
  stageRecommendations : StageRecommendation
  warnings : List String
deriving Inhabited

/-- `PeyronieMedicalCalculator.calculateDosing` (calculator.js lines 33-83):
fails fast when not initialized, propagates the stage-engine NotFound error,
and SKIPS selected ids with no component record (`if (!component) continue`)
rather than raising. -/
noncomputable def calculateDosing (pc : Calculator) (p : PatientProfile) (sel : List String) :
    Except String DosingResultRec :=
  if pc.ready = false then .error "Calculator not initialized"
  else
    match getRecommendations pc.stagesData p.stage (some p) with
    | .error e => .error e
    | .ok recs =>
      let componentDoses := sel.filterMap (fun id =>
        (pc.componentsData.components id).map (fun c => (id, componentDoseResult c p)))
      let synergyEffects := calculateSynergies pc.interactionsData sel
      let eff0 := calculateOverallEffectiveness pc sel synergyEffects p
      let eff := calculateStageSpecificEffectiveness pc.stagesData p.stage sel eff0 (some p)
      .ok { componentDoses := componentDoses
            synergyEffects := synergyEffects
            effectiveness := eff
            stageRecommendations := recs
            warnings := generateWarnings p sel }

/-- State-passing translation of `calculateDosing` for the purity claim:
every statement of the JavaScript method only reads the calculator fields
(the three reference stores and the initialization flag); no statement on the
calculation path assigns to them, and the effectiveness record mutated in
place by the stage engine is a fresh spread copy of a locally created record,
so the translation threads the calculator state through unchanged. -/
noncomputable def calculateDosingStep (pc : Calculator) (p : PatientProfile)
    (sel : List String) : Except String DosingResultRec × Calculator :=
  if pc.ready = false then (.error "Calculator not initialized", pc)
  else
    match getRecommendations pc.stagesData p.stage (some p) with
    | .error e => (.error e, pc)
    | .ok recs =>
      let componentDoses := sel.filterMap (fun id =>
        (pc.componentsData.components id).map (fun c => (id, componentDoseResult c p)))
      let synergyEffects := calculateSynergies pc.interactionsData sel
      let eff0 := calculateOverallEffectiveness pc sel synergyEffects p
      let eff := calculateStageSpecificEffectiveness pc.stagesData p.stage sel eff0 (some p)
      (.ok { componentDoses := componentDoses
             synergyEffects := synergyEffects
             effectiveness := eff
             stageRecommendations := recs
             warnings := generateWarnings p sel }, pc)

/-! ## Specification-side closed forms and original-claim formulas -/

/-- Specification closed form of the blending synergy factor of
`aggregateMetric`: products over the significance sublists with caps
1.6 / 1.3, bounded exponents, clamp to [0.5, 1.8]. -/
def blendSynergyFactorSpec (l : List ProcessedInteraction) : ℚ :=
  let highs := l.filter (fun s => decide (s.significance = "high"))
  let mods := l.filter (fun s => decide (s.significance = "moderate"))
  let base := (highs.map (fun s => min (jsOrOne s.factor) (8/5))).prod *
              (mods.map (fun s => min (jsOrOne s.factor) (13/10))).prod
  let b1 := if 1 < highs.length then base * (9/10) ^ (min (highs.length - 1) 10) else base
  let b2 := if 2 < mods.length then b1 * (19/20) ^ (min (mods.length - 2) 10) else b1
  max (1/2) (min b2 (9/5))

/-- Specification closed form of one aggregated metric, per the amended
claim C1: contributions use the display-ROUNDED adjusted dose, the raw
diminishing-returns value is taken to the power 0.9 and scaled by the
bounded synergy blend, then clamped to [0, 100]. -/
noncomputable def aggregateMetricSpec (cd : ComponentsData) (sel : List String)
    (synergies : List (String × ProcessedInteraction)) (p : PatientProfile)
    (g : Pharmacodynamics → ℚ) : ℝ :=
  let contributions := (sel.filterMap cd.components).map (fun c =>
    max 0 (min 1 (g c.pharmacodynamics / 100 *
      max 0 (min 2 (((componentDoseResult c p).adjustedDose : ℚ) /
        (c.dosePerKg * p.weight))))))
  let raw : ℚ := max 0 (100 * (1 - (contributions.map (fun x => 1 - x)).prod))
  let osf := blendSynergyFactorSpec (synergies.map Prod.snd)
  let blend : ℚ := 85/100 + 15/100 * max 0 (min ((osf - 1) / (8/10)) 1)
  max 0 (min 100 ((raw : ℝ) ^ ((9 : ℝ)/10) * (blend : ℝ)))

/-- The original claim C1 formula: `100 (1 − Π (1 − clamp01(base/100 · w)))`
with `w = clamp(adjustedDose / (dosePerKg · weight), 0, 2)` taken at the
UNROUNDED adjusted dose and with no synergy-blend layer. -/
def c1ClaimedMetric (cd : ComponentsData) (sel : List String)
    (p : PatientProfile) (g : Pharmacodynamics → ℚ) : ℚ :=
  100 * (1 - ((sel.filterMap cd.components).map (fun c =>
    1 - max 0 (min 1 (g c.pharmacodynamics / 100 *
      max 0 (min 2 (adjustedDoseVal c p / (c.dosePerKg * p.weight))))))).prod)

/-- The C1 formula with the synergy-blend layer but the UNROUNDED adjusted
dose; used to isolate the rounding divergence of the claim. -/
noncomputable def c1BlendedUnroundedMetric (cd : ComponentsData) (sel : List String)
    (synergies : List (String × ProcessedInteraction)) (p : PatientProfile)
    (g : Pharmacodynamics → ℚ) : ℝ :=
  let contributions := (sel.filterMap cd.components).map (fun c =>
    max 0 (min 1 (g c.pharmacodynamics / 100 *
      max 0 (min 2 (adjustedDoseVal c p / (c.dosePerKg * p.weight))))))
  let raw : ℚ := max 0 (100 * (1 - (contributions.map (fun x => 1 - x)).prod))
  let osf := blendSynergyFactorSpec (synergies.map Prod.snd)
  let blend : ℚ := 85/100 + 15/100 * max 0 (min ((osf - 1) / (8/10)) 1)
  max 0 (min 100 ((raw : ℝ) ^ ((9 : ℝ)/10) * (blend : ℝ)))

/-- Specification closed form of the response potential, per the amended
claim C2: the synergy boost is the capped product over all found synergies
and the term `0.9 + 0.1 (boost − 1)/0.6` is NOT clamped below. -/
def responsePotentialSpec (sd : StagesData) (idata : InteractionsData)
    (sel : List String) (p : PatientProfile) : ℚ :=
  let stageOpt := sd.stageProtocols p.stage
  let baseSuccess := (stageOpt.map (fun s => s.successBase)).getD 70
  let core := (stageOpt.map (fun s => s.coreComponents)).getD []
  let covered := (sel.filter (fun c => core.contains c)).length
  let coverageRatio : ℚ :=
    if core.length = 0 then 1/2 else (covered : ℚ) / (core.length : ℚ)
  let syns := (calculateSynergies idata sel).map Prod.snd
  let synergyBoost := min ((syns.map (fun s => min (jsOrOne s.factor) (3/2))).prod) (8/5)
  let penalty : ℚ :=
    (if 65 ≤ p.age then 10 else 0) + (if 30 ≤ p.bmi then 5 else 0) +
    (if p.smoking then 5 else 0) +
    (if p.creatinineClearance < 30 then 10 else 0) +
    (if p.liverFunction ≠ "" ∧ p.liverFunction ≠ "normal" then 10 else 0)
  max 0 (min 95
    (baseSuccess * coverageRatio * (9/10 + 1/10 * (synergyBoost - 1) / (6/10)) - penalty))

/-- Specification closed form of the overall stage multiplier applied to the
effectiveness record. -/
noncomputable def stageMultiplierSpec (sd : StagesData) (stageId : String) (sel : List String)
    (p : PatientProfile) : ℝ :=
  (if stageId = "acute" then
    (if sel.contains "vitamin-c" ∨ sel.contains "vitamin-e" then 1.25 else 1) *
    (if p.hasPlaque ∨ p.hasCalcification then 1.3 else 1)
   else if stageId = "chronic" then
    match sd.stageProtocols stageId with
    | some st => calcChronicStageMultiplier sel st
    | none => 1
   else 1) *
  (if p.hasCalcification ∧ sel.contains "pentoxifylline" then 1.2 else 1) *
  (if 60 < p.curvature then (if 10 ≤ sel.length then 1.1 else 0.85) else 1)

/-- The original claim C2 formula: inner clamp on the synergy term, and no
stage multiplier applied to the response potential. -/
def c2ClaimedSuccessRate (sd : StagesData) (idata : InteractionsData)
    (sel : List String) (p : PatientProfile) : ℚ :=
  let stageOpt := sd.stageProtocols p.stage
  let baseSuccess := (stageOpt.map (fun s => s.successBase)).getD 70
  let core := (stageOpt.map (fun s => s.coreComponents)).getD []
  let covered := (sel.filter (fun c => core.contains c)).length
  let coverageRatio : ℚ :=
    if core.length = 0 then 1/2 else (covered : ℚ) / (core.length : ℚ)
  let syns := (calculateSynergies idata sel).map Prod.snd
  let synergyBoost := min ((syns.map (fun s => min s.factor (3/2))).prod) (8/5)
  let penalty : ℚ :=
    (if 65 ≤ p.age then 10 else 0) + (if 30 ≤ p.bmi then 5 else 0) +
    (if p.smoking then 5 else 0) +
    (if p.creatinineClearance < 30 then 10 else 0) +
    (if p.liverFunction ≠ "normal" then 10 else 0)
  max 0 (min 95
    (baseSuccess * coverageRatio *
      (9/10 + 1/10 * max 0 (min ((synergyBoost - 1) / (6/10)) 1)) - penalty))

/-! ## Concrete sample data for counterexamples and witnesses -/

/-- Trivial pharmacokinetics: full bioavailability, unit distribution. -/
def pkUnit : Pharmacokinetics := ⟨100, 1, 1⟩

/-- Empty interaction store. -/
def emptyInteractions : InteractionsData := ⟨fun _ => none, fun _ => none⟩

/-- Empty stage store. -/
def emptyStages : StagesData := ⟨fun _ => none⟩

/-- Empty component store. -/
def cdEmpty : ComponentsData := ⟨fun _ => none⟩

/-- Scenario A component: full tgf effect at nominal dose, no adjustments. -/
def compAlpha : Component :=
  { name := "alpha", dosePerKg := 1, pharmacokinetics := pkUnit
    pharmacodynamics := { tgfReduction := 100 } }

/-- Scenario A store. -/
def cdA : ComponentsData := ⟨fun id => if id = "alpha" then some compAlpha else none⟩

/-- Scenario A profile: no adjustment predicate holds. -/
def profileA : PatientProfile :=
  { weight := 80, age := 45, bmi := 24, smoking := false
    creatinineClearance := 90, liverFunction := "normal", stage := "chronic" }

/-- Scenario A calculator. -/
def pcA : Calculator := ⟨cdA, emptyInteractions, emptyStages, true⟩

/-- Scenario B component: the age adjustment 1.1 makes the adjusted dose
89.1 mg, which the dose result rounds to 89. -/
def compBeta : Component :=
  { name := "beta", dosePerKg := 1, pharmacokinetics := pkUnit
    pharmacodynamics := { tgfReduction := 50 }
    adjustments := { age65 := some (11/10) } }

/-- Scenario B store. -/
def cdB : ComponentsData := ⟨fun id => if id = "beta" then some compBeta else none⟩

/-- Scenario B profile: weight 81, age 70. -/
def profileB : PatientProfile :=
  { weight := 81, age := 70, bmi := 24, smoking := false
    creatinineClearance := 90, liverFunction := "normal", stage := "chronic" }

/-- Scenario B calculator. -/
def pcB : Calculator := ⟨cdB, emptyInteractions, emptyStages, true⟩

/-- A plain component with no pharmacodynamic effect and no adjustments. -/
def compPlain : Component :=
  { name := "plain", dosePerKg := 1, pharmacokinetics := pkUnit
    pharmacodynamics := {} }

/-- Store holding plain components a, b, c. -/
def cdABC : ComponentsData :=
  ⟨fun id => if id = "a" ∨ id = "b" ∨ id = "c" then some compPlain else none⟩

/-- Chronic stage with success base 90 and core components a, b. -/
def stChronic90 : StageProtocol :=
  { duration := "12", coreComponents := ["a", "b"], successBase := 90 }

/-- Stage store holding only the chronic stage with base 90. -/
def sdChronic90 : StagesData :=
  ⟨fun id => if id = "chronic" then some stChronic90 else none⟩

/-- Interaction store: a_b is a moderate synergy with factor 0.5. -/
def idataHalf : InteractionsData :=
  ⟨fun k => if k = "a_b" then
     some { type := "synergy", factor := 1/2, significance := "moderate" }
   else none,
   fun _ => none⟩

/-- Neutral chronic-stage profile with no penalties. -/
def profC2 : PatientProfile :=
  { weight := 80, age := 45, bmi := 24, smoking := false
    creatinineClearance := 90, liverFunction := "normal", stage := "chronic" }

/-- Calculator for the first C2 scenario. -/
def pcC2a : Calculator := ⟨cdABC, idataHalf, sdChronic90, true⟩

/-- Chronic stage with success base 95 and core components a, b. -/
def stChronic95 : StageProtocol :=
  { duration := "12", coreComponents := ["a", "b"], successBase := 95 }

/-- Stage store holding only the chronic stage with base 95. -/
def sdChronic95 : StagesData :=
  ⟨fun id => if id = "chronic" then some stChronic95 else none⟩

/-- Interaction store with two boosting synergies: a_b factor 1.5 and
a_c factor 1.2. -/
def idataBoost : InteractionsData :=
  ⟨fun k => if k = "a_b" then
     some { type := "synergy", factor := 3/2, significance := "moderate" }
   else if k = "a_c" then
     some { type := "synergy", factor := 6/5, significance := "low" }
   else none,
   fun _ => none⟩

/-- Calculator for the second C2 scenario. -/
def pcC2b : Calculator := ⟨cdABC, idataBoost, sdChronic95, true⟩

/-- Component declaring an age adjustment factor of 0 (falsy, skipped by the
code). -/
def compZero : Component :=
  { name := "zero", dosePerKg := 100, pharmacokinetics := pkUnit
    pharmacodynamics := {}, adjustments := { age65 := some 0 } }

/-- Elderly profile triggering only the age predicate. -/
def profElder : PatientProfile :=
  { weight := 1, age := 70, bmi := 24, smoking := false
    creatinineClearance := 90, liverFunction := "normal", stage := "chronic" }

/-- The C4 example component of the spec: age65 = 1.1, bmi30 = 1.2,
smoking = 1.15, crCl30 = 0.8, no childB factor. -/
def exComp : Component :=
  { name := "example", dosePerKg := 1, pharmacokinetics := pkUnit
    pharmacodynamics := {}
    adjustments := { age65 := some (11/10), bmi30 := some (12/10)
                     smoking := some (115/100), crCl30 := some (8/10) } }

/-- The C4 example profile of the spec: weight 80, age 70, bmi 31, smoker,
creatinine clearance 40, Child-Pugh-B liver. -/
def exProfile : PatientProfile :=
  { weight := 80, age := 70, bmi := 31, smoking := true
    creatinineClearance := 40, liverFunction := "childB", stage := "chronic" }

/-- Acute stage protocol with default duration 3-18 months. -/
def stAcute : StageProtocol :=
  { duration := "3-18", durationUnit := "months", coreComponents := []
    successBase := 60 }

/-- Stage store holding the acute stage. -/
def sdAcute : StagesData := ⟨fun id => if id = "acute" then some stAcute else none⟩

/-- Acute profile with calcification. -/
def profAcuteCalc : PatientProfile :=
  { weight := 75, age := 45, bmi := 24, smoking := false
    creatinineClearance := 90, liverFunction := "normal", stage := "acute"
    hasPlaque := true, hasCalcification := true }

/-- Calcified stage protocol with no core list (coverage defaults to 0.5). -/
def stCalcified : StageProtocol :=
  { duration := "12", coreComponents := [], successBase := 70 }

/-- Stage store holding the calcified stage. -/
def sdCalcified : StagesData :=
  ⟨fun id => if id = "calcified" then some stCalcified else none⟩

/-- Calcified-stage profile. -/
def profCalcified : PatientProfile :=
  { weight := 75, age := 45, bmi := 24, smoking := false
    creatinineClearance := 90, liverFunction := "normal", stage := "calcified" }

/-- Calculator with the calcified stage store and no components. -/
def pcCalcified : Calculator := ⟨cdEmpty, emptyInteractions, sdCalcified, true⟩

/-- The sample successful dosing run used to witness the effectiveness
bounds claim. -/
noncomputable def c5SampleResult : DosingResultRec :=
  ((calculateDosing pcC2a profC2 ["a"]).toOption).getD default

/-- All six effectiveness fields are nonnegative. -/
def NonnegEff (e : Effectiveness) : Prop :=
  0 ≤ e.tgfReduction ∧ 0 ≤ e.collagenReduction ∧ 0 ≤ e.curvatureReduction ∧
  0 ≤ e.plaqueReduction ∧ 0 ≤ e.painRelief ∧ 0 ≤ e.overallSuccessRate

/-- All six effectiveness fields lie in the interval [0, 100]. -/
def BddEff (e : Effectiveness) : Prop :=
  (0 ≤ e.tgfReduction ∧ e.tgfReduction ≤ 100) ∧
  (0 ≤ e.collagenReduction ∧ e.collagenReduction ≤ 100) ∧
  (0 ≤ e.curvatureReduction ∧ e.curvatureReduction ≤ 100) ∧
  (0 ≤ e.plaqueReduction ∧ e.plaqueReduction ≤ 100) ∧
  (0 ≤ e.painRelief ∧ e.painRelief ≤ 100) ∧
  (0 ≤ e.overallSuccessRate ∧ e.overallSuccessRate ≤ 100)

/-! ## Helper lemmas -/

/-- One adjustment step multiplies in exactly the factors selected by
`adjList`. -/
theorem adjStep_prod (cond : Bool) (adj : Option ℚ) (f : ℚ) :
    adjStep cond adj f = f * (adjList cond adj).prod := by
  cases adj with
  | none => simp [adjStep, adjList]
  | some a =>
    by_cases h : cond = true ∧ a ≠ 0 <;> simp [adjStep, adjList, h]

/-- The accumulator fold over synergies computes the filtered products and
the significance counts. -/
theorem synergy_foldl_eq (fH fM : ProcessedInteraction → ℚ) :
    ∀ (l : List ProcessedInteraction) (a : ℚ) (h m : ℕ),
      l.foldl (fun (acc : ℚ × ℕ × ℕ) s =>
        if s.significance = "high" then (acc.1 * fH s, acc.2.1 + 1, acc.2.2)
        else if s.significance = "moderate" then
          (acc.1 * fM s, acc.2.1, acc.2.2 + 1)
        else acc) (a, h, m) =
      (a * ((l.filter (fun s => decide (s.significance = "high"))).map fH).prod
         * ((l.filter (fun s => decide (s.significance = "moderate"))).map fM).prod,
       h + (l.filter (fun s => decide (s.significance = "high"))).length,
       m + (l.filter (fun s => decide (s.significance = "moderate"))).length) := by
  intro l
  induction l with
  | nil => intro a h m; simp
  | cons x xs ih =>
    intro a h m
    by_cases hx : x.significance = "high"
    · have hstep : (x :: xs).foldl
          (fun (acc : ℚ × ℕ × ℕ) s =>
            if s.significance = "high" then (acc.1 * fH s, acc.2.1 + 1, acc.2.2)
            else if s.significance = "moderate" then
              (acc.1 * fM s, acc.2.1, acc.2.2 + 1)
            else acc) (a, h, m) =
          xs.foldl
          (fun (acc : ℚ × ℕ × ℕ) s =>
            if s.significance = "high" then (acc.1 * fH s, acc.2.1 + 1, acc.2.2)
            else if s.significance = "moderate" then
              (acc.1 * fM s, acc.2.1, acc.2.2 + 1)
            else acc) (a * fH x, h + 1, m) := by
        simp [List.foldl_cons, hx]
      have hfh : (x :: xs).filter (fun s => decide (s.significance = "high")) =
          x :: xs.filter (fun s => decide (s.significance = "high")) := by
        simp [List.filter_cons, hx]
      have hfm : (x :: xs).filter (fun s => decide (s.significance = "moderate")) =
          xs.filter (fun s => decide (s.significance = "moderate")) := by
        simp [List.filter_cons, hx]
      rw [hstep, ih, hfh, hfm]
      simp only [List.map_cons, List.prod_cons, List.length_cons]
      refine Prod.ext_iff.mpr ⟨by ring, Prod.ext_iff.mpr ⟨by dsimp only; try omega, by dsimp only; try omega⟩⟩
    · by_cases hm : x.significance = "moderate"
      · have hstep : (x :: xs).foldl
            (fun (acc : ℚ × ℕ × ℕ) s =>
              if s.significance = "high" then (acc.1 * fH s, acc.2.1 + 1, acc.2.2)
              else if s.significance = "moderate" then
                (acc.1 * fM s, acc.2.1, acc.2.2 + 1)
              else acc) (a, h, m) =
            xs.foldl
            (fun (acc : ℚ × ℕ × ℕ) s =>
            if s.significance = "high" then (acc.1 * fH s, acc.2.1 + 1, acc.2.2)
            else if s.significance = "moderate" then
              (acc.1 * fM s, acc.2.1, acc.2.2 + 1)
            else acc) (a * fM x, h, m + 1) := by
          simp [List.foldl_cons, hx, hm]
        have hfh : (x :: xs).filter (fun s => decide (s.significance = "high")) =
            xs.filter (fun s => decide (s.significance = "high")) := by
          simp [List.filter_cons, hx]
        have hfm : (x :: xs).filter (fun s => decide (s.significance = "moderate")) =
            x :: xs.filter (fun s => decide (s.significance = "moderate")) := by
          simp [List.filter_cons, hm]
        rw [hstep, ih, hfh, hfm]
        simp only [List.map_cons, List.prod_cons, List.length_cons]
        refine Prod.ext_iff.mpr ⟨by ring, Prod.ext_iff.mpr ⟨by dsimp only; try omega, by dsimp only; try omega⟩⟩
      · have hstep : (x :: xs).foldl
            (fun (acc : ℚ × ℕ × ℕ) s =>
              if s.significance = "high" then (acc.1 * fH s, acc.2.1 + 1, acc.2.2)
              else if s.significance = "moderate" then
                (acc.1 * fM s, acc.2.1, acc.2.2 + 1)
              else acc) (a, h, m) =
            xs.foldl
            (fun (acc : ℚ × ℕ × ℕ) s =>
            if s.significance = "high" then (acc.1 * fH s, acc.2.1 + 1, acc.2.2)
            else if s.significance = "moderate" then
              (acc.1 * fM s, acc.2.1, acc.2.2 + 1)
            else acc) (a, h, m) := by
          simp [List.foldl_cons, hx, hm]
        have hfh : (x :: xs).filter (fun s => decide (s.significance = "high")) =
            xs.filter (fun s => decide (s.significance = "high")) := by
          simp [List.filter_cons, hx]
        have hfm : (x :: xs).filter (fun s => decide (s.significance = "moderate")) =
            xs.filter (fun s => decide (s.significance = "moderate")) := by
          simp [List.filter_cons, hm]
        rw [hstep, ih, hfh, hfm]

/-- The plain product fold over synergies. -/
theorem prod_foldl_eq (q : ProcessedInteraction → ℚ) :
    ∀ (l : List ProcessedInteraction) (a : ℚ),
      l.foldl (fun acc s => acc * q s) a = a * (l.map q).prod := by
  intro l
  induction l with
  | nil => intro a; simp
  | cons x xs ih => intro a; simp [ih]; ring

/-- The key projection of the dose list built by `calculateDosing` is the
sublist of selected ids found in the store. -/
theorem doses_keys_eq (f : String → Option Component)
    (g : String → Component → DoseResult) :
    ∀ sel : List String,
      (sel.filterMap (fun id => (f id).map (fun c => (id, g id c)))).map Prod.fst =
        sel.filter (fun id => (f id).isSome) := by
  intro sel
  induction sel with
  | nil => simp
  | cons x xs ih =>
    cases hx : f x with
    | none => simp [List.filterMap_cons, hx, ih]
    | some c => simp [List.filterMap_cons, hx, ih]

/-! ## Claim theorems -/

/-- C4 counterexample: a component declaring an age-65 adjustment factor of 0
falsifies the claim as stated. The claimed product over the declared
applicable factors is 0 (so the claimed adjusted dose is 0), but the code
skips the falsy declared 0 and returns adjustment factor 1 and adjusted dose
100 mg. -/
theorem c4_counterexample :
    adjustmentFactorVal compZero profElder = 1 ∧
    (declaredApplicableFactors compZero profElder).prod = 0 ∧
    adjustedDoseVal compZero profElder = 100 ∧
    baseDoseVal compZero profElder * (declaredApplicableFactors compZero profElder).prod = 0 ∧
    (100 : ℚ) ≠ 0 := by
  refine ⟨?_, ?_, ?_, ?_, by norm_num⟩ <;>
    norm_num [adjustmentFactorVal, adjStep, adjustedDoseVal, baseDoseVal,
      declaredApplicableFactors, declaredAdjList, compZero, profElder]

/-- C4 (amended): for every component and profile the unrounded adjusted dose
is `baseDose * adjustmentFactor`, and the adjustment factor is the product of
exactly those declared adjustment factors whose predicate holds AND whose
declared value is nonzero (JavaScript truthiness: a declared 0 is skipped,
behaving like an undeclared factor); the specification example profile yields
the factor 1.2144. -/
theorem c4_adjusted_dose_amended :
    (∀ (c : Component) (p : PatientProfile),
        adjustedDoseVal c p = baseDoseVal c p * adjustmentFactorVal c p ∧
        adjustmentFactorVal c p = (applicableAdjFactors c p).prod) ∧
    adjustmentFactorVal exComp exProfile = 12144/10000 := by
  constructor
  · intro c p
    refine ⟨rfl, ?_⟩
    simp only [adjustmentFactorVal, applicableAdjFactors, adjStep_prod,
      List.prod_append]
    ring
  · norm_num [adjustmentFactorVal, adjStep, exComp, exProfile]

/-- C6: the reporting overall synergy factor equals its closed form: the
product of `min(factor, 2)` over high-significance synergies times the
product of `min(factor, 1.5)` over moderate-significance synergies, with the
diminishing-returns corrections `0.9^(high−1)` (when high > 1) and
`0.95^(moderate−2)` (when moderate > 2), capped at 3. -/
theorem c6_overall_synergy_factor :
    ∀ synergies : List (String × ProcessedInteraction),
      calculateOverallSynergyFactor synergies =
        overallSynergyFactorSpec (synergies.map Prod.snd) := by
  intro syns
  simp only [calculateOverallSynergyFactor, overallSynergyFactorSpec,
    synergy_foldl_eq]
  norm_num

set_option maxHeartbeats 1600000 in
/-- C7: the combination-index interpretation looks up exactly the bucket key
whose range contains the index, ranges having exclusive lower and inclusive
upper boundaries; in particular 0.7 lands in the 0.3-0.7 bucket and 0.70001
in the 0.7-0.85 bucket. -/
theorem c7_ci_buckets :
    (∀ (idata : InteractionsData) (ci : ℚ),
        interpretCombinationIndex idata ci = idata.interpretation (ciBucketKey ci)) ∧
    (∀ ci : ℚ,
      (ci < 1/10 → ciBucketKey ci = "CI < 0.1") ∧
      (1/10 ≤ ci ∧ ci ≤ 3/10 → ciBucketKey ci = "0.1-0.3") ∧
      (3/10 < ci ∧ ci ≤ 7/10 → ciBucketKey ci = "0.3-0.7") ∧
      (7/10 < ci ∧ ci ≤ 85/100 → ciBucketKey ci = "0.7-0.85") ∧
      (85/100 < ci ∧ ci ≤ 90/100 → ciBucketKey ci = "0.85-0.90") ∧
      (90/100 < ci ∧ ci ≤ 110/100 → ciBucketKey ci = "0.90-1.10") ∧
      (110/100 < ci ∧ ci ≤ 120/100 → ciBucketKey ci = "1.10-1.20") ∧
      (120/100 < ci ∧ ci ≤ 145/100 → ciBucketKey ci = "1.20-1.45") ∧
      (145/100 < ci ∧ ci ≤ 33/10 → ciBucketKey ci = "1.45-3.3") ∧
      (33/10 < ci → ciBucketKey ci = "> 3.3")) ∧
    ciBucketKey (7/10) = "0.3-0.7" ∧
    ciBucketKey (70001/100000) = "0.7-0.85" := by
  refine ⟨?_, ?_, by norm_num [ciBucketKey], by norm_num [ciBucketKey]⟩
  · intro idata ci
    unfold interpretCombinationIndex ciBucketKey
    split_ifs <;> rfl
  · intro ci
    refine ⟨fun h => by simp only [ciBucketKey, if_pos h], ?_, ?_, ?_, ?_, ?_, ?_, ?_, ?_, ?_⟩
    · rintro ⟨ha, hb⟩
      have n1 : ¬(ci < 1/10) := by push_neg; linarith
      simp only [ciBucketKey, if_neg n1, if_pos hb]
    · rintro ⟨ha, hb⟩
      have n1 : ¬(ci < 1/10) := by push_neg; linarith
      have n2 : ¬(ci ≤ 3/10) := by push_neg; linarith
      simp only [ciBucketKey, if_neg n1, if_neg n2, if_pos hb]
    · rintro ⟨ha, hb⟩
      have n1 : ¬(ci < 1/10) := by push_neg; linarith
      have n2 : ¬(ci ≤ 3/10) := by push_neg; linarith
      have n3 : ¬(ci ≤ 7/10) := by push_neg; linarith
      simp only [ciBucketKey, if_neg n1, if_neg n2, if_neg n3, if_pos hb]
    · rintro ⟨ha, hb⟩
      have n1 : ¬(ci < 1/10) := by push_neg; linarith
      have n2 : ¬(ci ≤ 3/10) := by push_neg; linarith
      have n3 : ¬(ci ≤ 7/10) := by push_neg; linarith
      have n4 : ¬(ci ≤ 85/100) := by push_neg; linarith
      simp only [ciBucketKey, if_neg n1, if_neg n2, if_neg n3, if_neg n4, if_pos hb]
    · rintro ⟨ha, hb⟩
      have n1 : ¬(ci < 1/10) := by push_neg; linarith
      have n2 : ¬(ci ≤ 3/10) := by push_neg; linarith
      have n3 : ¬(ci ≤ 7/10) := by push_neg; linarith
      have n4 : ¬(ci ≤ 85/100) := by push_neg; linarith
      have n5 : ¬(ci ≤ 90/100) := by push_neg; linarith
      simp only [ciBucketKey, if_neg n1, if_neg n2, if_neg n3, if_neg n4, if_neg n5, if_pos hb]
    · rintro ⟨ha, hb⟩
      have n1 : ¬(ci < 1/10) := by push_neg; linarith
      have n2 : ¬(ci ≤ 3/10) := by push_neg; linarith
      have n3 : ¬(ci ≤ 7/10) := by push_neg; linarith
      have n4 : ¬(ci ≤ 85/100) := by push_neg; linarith
      have n5 : ¬(ci ≤ 90/100) := by push_neg; linarith
      have n6 : ¬(ci ≤ 110/100) := by push_neg; linarith
      simp only [ciBucketKey, if_neg n1, if_neg n2, if_neg n3, if_neg n4, if_neg n5, if_neg n6, if_pos hb]
    · rintro ⟨ha, hb⟩
      have n1 : ¬(ci < 1/10) := by push_neg; linarith
      have n2 : ¬(ci ≤ 3/10) := by push_neg; linarith
      have n3 : ¬(ci ≤ 7/10) := by push_neg; linarith
      have n4 : ¬(ci ≤ 85/100) := by push_neg; linarith
      have n5 : ¬(ci ≤ 90/100) := by push_neg; linarith
      have n6 : ¬(ci ≤ 110/100) := by push_neg; linarith
      have n7 : ¬(ci ≤ 120/100) := by push_neg; linarith
      simp only [ciBucketKey, if_neg n1, if_neg n2, if_neg n3, if_neg n4, if_neg n5, if_neg n6, if_neg n7, if_pos hb]
    · rintro ⟨ha, hb⟩
      have n1 : ¬(ci < 1/10) := by push_neg; linarith
      have n2 : ¬(ci ≤ 3/10) := by push_neg; linarith
      have n3 : ¬(ci ≤ 7/10) := by push_neg; linarith
      have n4 : ¬(ci ≤ 85/100) := by push_neg; linarith
      have n5 : ¬(ci ≤ 90/100) := by push_neg; linarith
      have n6 : ¬(ci ≤ 110/100) := by push_neg; linarith
      have n7 : ¬(ci ≤ 120/100) := by push_neg; linarith
      have n8 : ¬(ci ≤ 145/100) := by push_neg; linarith
      simp only [ciBucketKey, if_neg n1, if_neg n2, if_neg n3, if_neg n4, if_neg n5, if_neg n6, if_neg n7, if_neg n8, if_pos hb]
    · intro h
      have n1 : ¬(ci < 1/10) := by push_neg; linarith
      have n2 : ¬(ci ≤ 3/10) := by push_neg; linarith
      have n3 : ¬(ci ≤ 7/10) := by push_neg; linarith
      have n4 : ¬(ci ≤ 85/100) := by push_neg; linarith
      have n5 : ¬(ci ≤ 90/100) := by push_neg; linarith
      have n6 : ¬(ci ≤ 110/100) := by push_neg; linarith
      have n7 : ¬(ci ≤ 120/100) := by push_neg; linarith
      have n8 : ¬(ci ≤ 145/100) := by push_neg; linarith
      have n9 : ¬(ci ≤ 33/10) := by push_neg; linarith
      simp only [ciBucketKey, if_neg n1, if_neg n2, if_neg n3, if_neg n4, if_neg n5, if_neg n6, if_neg n7, if_neg n8, if_neg n9]

/-- C8: for the acute stage, the recommendation duration is the 18-36 range
under calcification, else the 6-24 range under plaque, else the stage
default, each joined with the stage duration unit. -/
theorem c8_acute_duration :
    ∀ (sd : StagesData) (st : StageProtocol) (p : PatientProfile),
      sd.stageProtocols "acute" = some st →
      (getRecommendations sd "acute" (some p)).map (fun r => r.duration) =
        .ok ((if p.hasCalcification then "18-36"
              else if p.hasPlaque then "6-24" else st.duration) ++
             " " ++ st.durationUnit) := by
  intro sd st p h
  simp [getRecommendations, h, Except.map]

/-- C8 witness: a concrete acute store and calcified profile. -/
theorem c8_acute_duration_witness :
    sdAcute.stageProtocols "acute" = some stAcute ∧
    (getRecommendations sdAcute "acute" (some profAcuteCalc)).map (fun r => r.duration) =
      .ok ((if profAcuteCalc.hasCalcification then "18-36"
            else if profAcuteCalc.hasPlaque then "6-24" else stAcute.duration) ++
           " " ++ stAcute.durationUnit) :=
  ⟨rfl, c8_acute_duration sdAcute stAcute profAcuteCalc rfl⟩

/-- C9: the state-passing translation of `calculateDosing` returns the
calculator reference data unchanged and produces the same pure result, and a
second invocation on the post-state returns the identical output. -/
theorem c9_purity :
    ∀ (pc : Calculator) (p : PatientProfile) (sel : List String),
      calculateDosingStep pc p sel = (calculateDosing pc p sel, pc) ∧
      (calculateDosingStep ((calculateDosingStep pc p sel).2) p sel).1 =
        (calculateDosingStep pc p sel).1 := by
  intro pc p sel
  have h : calculateDosingStep pc p sel = (calculateDosing pc p sel, pc) := by
    unfold calculateDosingStep calculateDosing
    by_cases hr : pc.ready = false
    · simp [hr]
    · simp only [hr, if_false]
      cases hgr : getRecommendations pc.stagesData p.stage (some p) <;> simp
  exact ⟨h, by simp [h]⟩

/-- C3 counterexample: a selection containing the unknown id ghost does NOT
make `calculateDosing` fail; the unknown id is silently skipped and the
remaining component is computed. -/
theorem c3_counterexample :
    (calculateDosing pcC2a profC2 ["a", "ghost"]).isOk = true ∧
    (calculateDosing pcC2a profC2 ["a", "ghost"]).map
        (fun r => r.componentDoses.map Prod.fst) = .ok ["a"] := by
  constructor <;> rfl

/-- C3 (amended): the dosing engine itself raises NotFound for an unknown
component id, but `calculateDosing` does not propagate it for ids inside the
selection: it filters unknown ids out (`if (!component) continue`) and
completes, its dose list keyed by exactly the selected ids found in the
store. -/
theorem c3_unknown_component_amended :
    (∀ (cd : ComponentsData) (id : String) (p : PatientProfile),
        cd.components id = none →
        calculateComponentDose cd id p =
          .error ("Component " ++ id ++ " not found")) ∧
    (∀ (pc : Calculator) (p : PatientProfile) (sel : List String),
        pc.ready = true →
        (pc.stagesData.stageProtocols p.stage).isSome = true →
        (calculateDosing pc p sel).isOk = true ∧
        (calculateDosing pc p sel).map (fun r => r.componentDoses.map Prod.fst) =
          .ok (sel.filter (fun id => (pc.componentsData.components id).isSome))) := by
  constructor
  · intro cd id p h
    simp [calculateComponentDose, h]
  · intro pc p sel hr hs
    rw [Option.isSome_iff_exists] at hs
    obtain ⟨st, hst⟩ := hs
    have hready : (pc.ready = false) = False := by simp [hr]
    constructor
    · simp only [calculateDosing, hready, if_false, getRecommendations, hst]
      rfl
    · simp only [calculateDosing, hready, if_false, getRecommendations, hst,
        Except.map, doses_keys_eq]

/-- C3 amended witness: concrete instances for both parts. -/
theorem c3_unknown_component_amended_witness :
    cdEmpty.components "ghost" = none ∧
    calculateComponentDose cdEmpty "ghost" profileA =
      .error ("Component " ++ "ghost" ++ " not found") ∧
    pcC2a.ready = true ∧
    (pcC2a.stagesData.stageProtocols profC2.stage).isSome = true ∧
    (calculateDosing pcC2a profC2 ["a", "ghost"]).map
        (fun r => r.componentDoses.map Prod.fst) =
      .ok (["a", "ghost"].filter
        (fun id => (pcC2a.componentsData.components id).isSome)) :=
  ⟨rfl, c3_unknown_component_amended.1 cdEmpty "ghost" profileA rfl, rfl, rfl,
   (c3_unknown_component_amended.2 pcC2a profC2 ["a", "ghost"] rfl rfl).2⟩

/-- C10: for an unknown component id the dose-range check returns the
structured invalid value with message Component not found — it is a total
function and never raises — whereas `calculateComponentDose` raises NotFound
for the same id. -/
theorem c10_validate_dose_range :
    ∀ (cd : ComponentsData) (id : String) (dose : ℚ) (p : PatientProfile),
      cd.components id = none →
      validateDoseRange cd id dose =
        { valid := false, error := some "Component not found", warning := none } ∧
      calculateComponentDose cd id p =
        .error ("Component " ++ id ++ " not found") := by
  intro cd id dose p h
  exact ⟨by simp [validateDoseRange, h], by simp [calculateComponentDose, h]⟩

/-- C10 witness: the empty store at a concrete id and dose. -/
theorem c10_validate_dose_range_witness :
    cdEmpty.components "ghost" = none ∧
    validateDoseRange cdEmpty "ghost" 500 =
      { valid := false, error := some "Component not found", warning := none } ∧
    calculateComponentDose cdEmpty "ghost" profileB =
      .error ("Component " ++ "ghost" ++ " not found") :=
  ⟨rfl, (c10_validate_dose_range cdEmpty "ghost" 500 profileB rfl).1,
   (c10_validate_dose_range cdEmpty "ghost" 500 profileB rfl).2⟩

/-- Each aggregated metric is clamped into [0, 100] by construction. -/
theorem aggregateMetric_bounds (cd : ComponentsData) (sel : List String)
    (synergies : List (String × ProcessedInteraction)) (p : PatientProfile)
    (g : Pharmacodynamics → ℚ) :
    0 ≤ aggregateMetric cd sel synergies p g ∧
    aggregateMetric cd sel synergies p g ≤ 100 := by
  unfold aggregateMetric
  exact ⟨le_max_left 0 _, max_le (by norm_num) (min_le_left _ _)⟩

/-- The response potential lies in [0, 95]. -/
theorem responsePotentialVal_bounds (sd : StagesData) (sel : List String)
    (synergies : List (String × ProcessedInteraction)) (p : PatientProfile) :
    0 ≤ responsePotentialVal sd sel synergies p ∧
    responsePotentialVal sd sel synergies p ≤ 95 := by
  unfold responsePotentialVal
  exact ⟨le_max_left 0 _, max_le (by norm_num) (min_le_left _ _)⟩

/-- The aggregation engine returns an effectiveness record with every field
in [0, 100]. -/
theorem calculateOverallEffectiveness_bdd (pc : Calculator) (sel : List String)
    (synergies : List (String × ProcessedInteraction)) (p : PatientProfile) :
    BddEff (calculateOverallEffectiveness pc sel synergies p) := by
  obtain ⟨hr0, hr95⟩ := responsePotentialVal_bounds pc.stagesData sel synergies p
  unfold BddEff calculateOverallEffectiveness
  dsimp only
  refine ⟨aggregateMetric_bounds _ _ _ _ _, aggregateMetric_bounds _ _ _ _ _,
    aggregateMetric_bounds _ _ _ _ _, aggregateMetric_bounds _ _ _ _ _,
    aggregateMetric_bounds _ _ _ _ _, ?_, ?_⟩
  · exact_mod_cast hr0
  · calc ((responsePotentialVal pc.stagesData sel synergies p : ℚ) : ℝ)
        ≤ ((95 : ℚ) : ℝ) := by exact_mod_cast hr95
      _ ≤ 100 := by norm_num

/-- The acute-stage step keeps the multiplier and all fields nonnegative. -/
theorem calcAcuteStageMultiplier_nonneg (sel : List String)
    (pOpt : Option PatientProfile) (e : Effectiveness) (he : NonnegEff e) :
    0 ≤ (calcAcuteStageMultiplier sel pOpt e).1 ∧
    NonnegEff (calcAcuteStageMultiplier sel pOpt e).2 := by
  obtain ⟨h1, h2, h3, h4, h5, h6⟩ := he
  unfold calcAcuteStageMultiplier
  cases pOpt with
  | none =>
    dsimp only
    split_ifs <;>
      exact ⟨by norm_num, h1, by linarith, h3, by linarith, h5, h6⟩
  | some p =>
    dsimp only
    split_ifs <;>
      refine ⟨by norm_num, h1, by linarith, h3, by linarith, h5, h6⟩

/-- The chronic multiplier is nonnegative. -/
theorem calcChronicStageMultiplier_nonneg (sel : List String)
    (stage : StageProtocol) : 0 ≤ calcChronicStageMultiplier sel stage := by
  unfold calcChronicStageMultiplier
  dsimp only
  split_ifs <;> norm_num

/-- The stage-identity layer keeps the multiplier and all fields
nonnegative. -/
theorem getStageMultiplier_nonneg (stageId : String) (sel : List String)
    (stage : StageProtocol) (pOpt : Option PatientProfile) (e : Effectiveness)
    (he : NonnegEff e) :
    0 ≤ (getStageMultiplier stageId sel stage pOpt e).1 ∧
    NonnegEff (getStageMultiplier stageId sel stage pOpt e).2 := by
  unfold getStageMultiplier
  split_ifs
  · exact calcAcuteStageMultiplier_nonneg sel pOpt e he
  · exact ⟨calcChronicStageMultiplier_nonneg sel stage, he⟩
  · exact ⟨by norm_num, he⟩

/-- The patient-factor layer keeps the multiplier and all fields
nonnegative. -/
theorem applyPatientProfileAdjustments_nonneg (pOpt : Option PatientProfile)
    (sel : List String) (e : Effectiveness) (m : ℝ) (he : NonnegEff e)
    (hm : 0 ≤ m) :
    0 ≤ (applyPatientProfileAdjustments pOpt sel e m).1 ∧
    NonnegEff (applyPatientProfileAdjustments pOpt sel e m).2 := by
  obtain ⟨h1, h2, h3, h4, h5, h6⟩ := he
  unfold applyPatientProfileAdjustments
  cases pOpt with
  | none => exact ⟨hm, h1, h2, h3, h4, h5, h6⟩
  | some p =>
    dsimp only
    split_ifs <;>
      refine ⟨by linarith, ?_, ?_, ?_, ?_, ?_, ?_⟩ <;>
      first | assumption | linarith

/-- The final multiplier application clamps every field into [0, 100]. -/
theorem applyMultiplierToEffectiveness_bdd (e : Effectiveness) (m : ℝ)
    (he : NonnegEff e) (hm : 0 ≤ m) :
    BddEff (applyMultiplierToEffectiveness e m) := by
  obtain ⟨h1, h2, h3, h4, h5, h6⟩ := he
  refine ⟨⟨?_, ?_⟩, ⟨?_, ?_⟩, ⟨?_, ?_⟩, ⟨?_, ?_⟩, ⟨?_, ?_⟩, ⟨?_, ?_⟩⟩ <;>
    first
      | exact min_le_right _ _
      | exact le_min (mul_nonneg (by assumption) hm) (by norm_num)

/-- The stage engine maps a bounded effectiveness record to a bounded
record. -/
theorem calculateStageSpecificEffectiveness_bdd (sd : StagesData)
    (stageId : String) (sel : List String) (e : Effectiveness)
    (pOpt : Option PatientProfile) (he : BddEff e) :
    BddEff (calculateStageSpecificEffectiveness sd stageId sel e pOpt) := by
  unfold calculateStageSpecificEffectiveness
  cases hst : sd.stageProtocols stageId with
  | none => exact he
  | some stage =>
    dsimp only
    have hnn : NonnegEff e :=
      ⟨he.1.1, he.2.1.1, he.2.2.1.1, he.2.2.2.1.1, he.2.2.2.2.1.1,
       he.2.2.2.2.2.1⟩
    obtain ⟨hm1, he1⟩ := getStageMultiplier_nonneg stageId sel stage pOpt e hnn
    obtain ⟨hm2, he2⟩ := applyPatientProfileAdjustments_nonneg pOpt sel
      (getStageMultiplier stageId sel stage pOpt e).2
      (getStageMultiplier stageId sel stage pOpt e).1 he1 hm1
    exact applyMultiplierToEffectiveness_bdd _ _ he2 hm2

/-- Inversion: a successful `calculateDosing` run implies the calculator was
initialized and the stage lookup succeeded. -/
theorem calculateDosing_ok_inv (pc : Calculator) (p : PatientProfile)
    (sel : List String) (r : DosingResultRec)
    (h : calculateDosing pc p sel = .ok r) :
    pc.ready = true ∧
    ∃ recs, getRecommendations pc.stagesData p.stage (some p) = .ok recs := by
  unfold calculateDosing at h
  by_cases hr : pc.ready = false
  · rw [if_pos hr] at h
    simp at h
  · refine ⟨by simpa using hr, ?_⟩
    cases hrec : getRecommendations pc.stagesData p.stage (some p) with
    | error e =>
      rw [if_neg hr, hrec] at h
      simp at h
    | ok recs => exact ⟨recs, rfl⟩

/-- The explicit successful result of `calculateDosing`. -/
theorem calculateDosing_eq_ok (pc : Calculator) (p : PatientProfile)
    (sel : List String) (recs : StageRecommendation) (hr : pc.ready = true)
    (hrec : getRecommendations pc.stagesData p.stage (some p) = .ok recs) :
    calculateDosing pc p sel = .ok
      { componentDoses := sel.filterMap (fun id =>
          (pc.componentsData.components id).map (fun c => (id, componentDoseResult c p)))
        synergyEffects := calculateSynergies pc.interactionsData sel
        effectiveness := calculateStageSpecificEffectiveness pc.stagesData p.stage sel
          (calculateOverallEffectiveness pc sel
            (calculateSynergies pc.interactionsData sel) p) (some p)
        stageRecommendations := recs
        warnings := generateWarnings p sel } := by
  unfold calculateDosing
  rw [if_neg (by simp [hr]), hrec]

/-- C5: every numeric field of the effectiveness record returned by a
successful `calculateDosing` run lies in [0, 100] — after the per-metric
aggregation, the stage sub-metric boosts (plaque 1.5, pain 1.2, and the
acute-stage scalings) and the final multiplier application. The bound needs
no validity assumption on the reference data at all: the aggregation clamps
every metric into [0, 100], the response potential into [0, 95], all stage
factors are nonnegative and the multiplier application caps each field at
100, so the theorem is stated (and proved) for arbitrary stores, which
subsumes the claim's valid stores. -/
theorem c5_effectiveness_bounds :
    ∀ (pc : Calculator) (p : PatientProfile) (sel : List String)
      (r : DosingResultRec),
      calculateDosing pc p sel = .ok r → BddEff r.effectiveness := by
  intro pc p sel r h
  obtain ⟨hr, recs, hrec⟩ := calculateDosing_ok_inv pc p sel r h
  rw [calculateDosing_eq_ok pc p sel recs hr hrec] at h
  injection h with h
  rw [← h]
  exact calculateStageSpecificEffectiveness_bdd _ _ _ _ _
    (calculateOverallEffectiveness_bdd _ _ _ _)

/-- C5 witness: a concrete successful run with all fields in range. -/
theorem c5_effectiveness_bounds_witness :
    calculateDosing pcC2a profC2 ["a"] = .ok c5SampleResult ∧
    BddEff c5SampleResult.effectiveness := by
  have h : calculateDosing pcC2a profC2 ["a"] = .ok c5SampleResult := rfl
  exact ⟨h, c5_effectiveness_bounds pcC2a profC2 ["a"] c5SampleResult h⟩

/-- The per-metric diminishing-returns fold equals the product over the
found components. -/
theorem metric_foldl_eq (cd : ComponentsData) (p : PatientProfile)
    (g : Pharmacodynamics → ℚ) :
    ∀ (sel : List String) (a : ℚ),
      sel.foldl (fun acc id =>
        match cd.components id with
        | none => acc
        | some c =>
          let base := g c.pharmacodynamics
          let w := max 0 (min 2 (((componentDoseResult c p).adjustedDose : ℚ) /
            (c.dosePerKg * p.weight)))
          let contribution := max 0 (min 1 (base / 100 * w))
          acc * (1 - contribution)) a =
      a * ((sel.filterMap cd.components).map (fun c =>
        1 - max 0 (min 1 (g c.pharmacodynamics / 100 *
          max 0 (min 2 (((componentDoseResult c p).adjustedDose : ℚ) /
            (c.dosePerKg * p.weight))))))).prod := by
  intro sel
  induction sel with
  | nil => intro a; simp
  | cons id ids ih =>
    intro a
    cases h : cd.components id with
    | none => simp [List.foldl_cons, List.filterMap_cons, h, ih]
    | some c =>
      simp only [List.foldl_cons, List.filterMap_cons, h, List.map_cons,
        List.prod_cons]
      rw [ih]
      ring

/-- The blending synergy factor equals its closed form. -/
theorem blendSynergyFactor_eq (synergies : List (String × ProcessedInteraction)) :
    blendSynergyFactor synergies = blendSynergyFactorSpec (synergies.map Prod.snd) := by
  unfold blendSynergyFactor blendSynergyFactorSpec
  rw [synergy_foldl_eq]
  norm_num

/-- One aggregated metric equals the amended-claim closed form. -/
theorem aggregateMetric_eq_spec (cd : ComponentsData) (sel : List String)
    (synergies : List (String × ProcessedInteraction)) (p : PatientProfile)
    (g : Pharmacodynamics → ℚ) :
    aggregateMetric cd sel synergies p g =
      aggregateMetricSpec cd sel synergies p g := by
  unfold aggregateMetric aggregateMetricSpec
  dsimp only
  rw [metric_foldl_eq, one_mul, blendSynergyFactor_eq, List.map_map]
  rfl

/-- The response potential equals its closed form on the synergies computed
from the interaction store. -/
theorem responsePotentialVal_eq_spec (sd : StagesData) (idata : InteractionsData)
    (sel : List String) (p : PatientProfile) :
    responsePotentialVal sd sel (calculateSynergies idata sel) p =
      responsePotentialSpec sd idata sel p := by
  unfold responsePotentialVal responsePotentialSpec
  dsimp only
  rw [prod_foldl_eq, one_mul]

/-- The acute-stage step never touches the response potential, and its
multiplier is the product of the antioxidant and plaque factors. -/
theorem calcAcuteStageMultiplier_osr (sel : List String) (p : PatientProfile)
    (e : Effectiveness) :
    (calcAcuteStageMultiplier sel (some p) e).2.overallSuccessRate =
      e.overallSuccessRate ∧
    (calcAcuteStageMultiplier sel (some p) e).1 =
      (if sel.contains "vitamin-c" ∨ sel.contains "vitamin-e" then 1.25 else 1) *
      (if p.hasPlaque ∨ p.hasCalcification then 1.3 else 1) := by
  unfold calcAcuteStageMultiplier
  dsimp only
  split_ifs <;> norm_num

/-- The stage-identity layer never touches the response potential, and its
multiplier matches the identity part of the spec multiplier. -/
theorem getStageMultiplier_osr (stageId : String) (sel : List String)
    (stage : StageProtocol) (p : PatientProfile) (e : Effectiveness) :
    (getStageMultiplier stageId sel stage (some p) e).2.overallSuccessRate =
      e.overallSuccessRate ∧
    (getStageMultiplier stageId sel stage (some p) e).1 =
      (if stageId = "acute" then
        (if sel.contains "vitamin-c" ∨ sel.contains "vitamin-e" then 1.25 else 1) *
        (if p.hasPlaque ∨ p.hasCalcification then 1.3 else 1)
       else if stageId = "chronic" then calcChronicStageMultiplier sel stage
       else 1) := by
  unfold getStageMultiplier
  by_cases h1 : stageId = "acute"
  · rw [if_pos h1, if_pos h1]
    exact calcAcuteStageMultiplier_osr sel p e
  · rw [if_neg h1, if_neg h1]
    by_cases h2 : stageId = "chronic"
    · rw [if_pos h2, if_pos h2]
      exact ⟨rfl, rfl⟩
    · rw [if_neg h2, if_neg h2]
      exact ⟨rfl, rfl⟩

/-- The patient-factor layer never touches the response potential, and its
multiplier factors as in the spec multiplier. -/
theorem applyPatientProfileAdjustments_osr (sel : List String)
    (p : PatientProfile) (e : Effectiveness) (m : ℝ) :
    (applyPatientProfileAdjustments (some p) sel e m).2.overallSuccessRate =
      e.overallSuccessRate ∧
    (applyPatientProfileAdjustments (some p) sel e m).1 =
      m * (if p.hasCalcification ∧ sel.contains "pentoxifylline" then 1.2 else 1) *
        (if 60 < p.curvature then (if 10 ≤ sel.length then 1.1 else 0.85) else 1) := by
  unfold applyPatientProfileAdjustments
  dsimp only
  split_ifs <;> refine ⟨rfl, ?_⟩ <;> ring

/-- The response potential passes through the stage engine multiplied by the
overall spec multiplier and capped at 100. -/
theorem calculateStageSpecificEffectiveness_osr (sd : StagesData)
    (stageId : String) (sel : List String) (e : Effectiveness)
    (p : PatientProfile) (st : StageProtocol)
    (hst : sd.stageProtocols stageId = some st) :
    (calculateStageSpecificEffectiveness sd stageId sel e (some p)).overallSuccessRate =
      min (e.overallSuccessRate * stageMultiplierSpec sd stageId sel p) 100 := by
  unfold calculateStageSpecificEffectiveness
  rw [hst]
  dsimp only
  obtain ⟨ha1, ha2⟩ := getStageMultiplier_osr stageId sel st p e
  obtain ⟨hb1, hb2⟩ := applyPatientProfileAdjustments_osr sel p
    (getStageMultiplier stageId sel st (some p) e).2
    (getStageMultiplier stageId sel st (some p) e).1
  unfold applyMultiplierToEffectiveness
  dsimp only
  rw [hb1, ha1, hb2, ha2]
  unfold stageMultiplierSpec
  rw [hst]

/-- Evaluation rule for the JavaScript rounding. -/
theorem jround_eq (q : ℚ) (z : ℤ) (h1 : (z : ℚ) ≤ q + 1/2)
    (h2 : q + 1/2 < z + 1) : jround q = z :=
  Int.floor_eq_iff.mpr ⟨h1, h2⟩

/-- C1 (amended): each of the five aggregated effectiveness metrics returned
by `calculateOverallEffectiveness` equals
`clamp(0, 100, raw^0.9 * (0.85 + 0.15 * clamp01((sf − 1)/0.8)))` where
`raw = max(0, 100 (1 − Π_i (1 − contribution_i)))` over the selected
components found in the store, `contribution_i` is the clamped
`(base_i/100) * clamp(adjustedDose_i / (dosePerKg_i * weight), 0, 2)` taken
at the display-ROUNDED adjusted dose of the dose record, and `sf` is the
blending synergy factor (caps 1.6 / 1.3 on truthy factors, bounded
diminishing-returns exponents, clamped to [0.5, 1.8]). -/
theorem c1_aggregate_metric_amended :
    ∀ (pc : Calculator) (sel : List String)
      (synergies : List (String × ProcessedInteraction)) (p : PatientProfile),
      (calculateOverallEffectiveness pc sel synergies p).tgfReduction =
        aggregateMetricSpec pc.componentsData sel synergies p (fun d => d.tgfReduction) ∧
      (calculateOverallEffectiveness pc sel synergies p).collagenReduction =
        aggregateMetricSpec pc.componentsData sel synergies p (fun d => d.collagenReduction) ∧
      (calculateOverallEffectiveness pc sel synergies p).curvatureReduction =
        aggregateMetricSpec pc.componentsData sel synergies p (fun d => d.curvatureReduction) ∧
      (calculateOverallEffectiveness pc sel synergies p).plaqueReduction =
        aggregateMetricSpec pc.componentsData sel synergies p (fun d => d.plaqueReduction) ∧
      (calculateOverallEffectiveness pc sel synergies p).painRelief =
        aggregateMetricSpec pc.componentsData sel synergies p (fun d => d.painRelief) := by
  intro pc sel synergies p
  exact ⟨aggregateMetric_eq_spec _ _ _ _ _, aggregateMetric_eq_spec _ _ _ _ _,
    aggregateMetric_eq_spec _ _ _ _ _, aggregateMetric_eq_spec _ _ _ _ _,
    aggregateMetric_eq_spec _ _ _ _ _⟩

set_option maxHeartbeats 4000000 in
/-- C1 counterexample. Scenario A (store cdA, one component at full effect,
nominal dose): the claimed raw formula gives 100, but the code applies the
`value^0.9 * 0.85` blend and returns a value below 85. Scenario B (store
cdB, adjusted dose 89.1 mg rounded to 89): even with the blend layer
granted, the code output differs from the formula taken at the UNROUNDED
adjusted dose, because the aggregation divides the display-rounded dose
record field. -/
theorem c1_counterexample :
    (calculateOverallEffectiveness pcA ["alpha"] [] profileA).tgfReduction ≠
      ((c1ClaimedMetric cdA ["alpha"] profileA (fun d => d.tgfReduction) : ℚ) : ℝ) ∧
    (calculateOverallEffectiveness pcB ["beta"] [] profileB).tgfReduction ≠
      c1BlendedUnroundedMetric cdB ["beta"] [] profileB (fun d => d.tgfReduction) := by
  have hdoseA : (componentDoseResult compAlpha profileA).adjustedDose = 80 := by
    show jround (adjustedDoseVal compAlpha profileA) = 80
    have hv : adjustedDoseVal compAlpha profileA = 80 := by
      norm_num [adjustedDoseVal, baseDoseVal, adjustmentFactorVal, adjStep,
        compAlpha, profileA]
    rw [hv]
    exact jround_eq 80 80 (by norm_num) (by norm_num)
  have hdoseB : (componentDoseResult compBeta profileB).adjustedDose = 89 := by
    show jround (adjustedDoseVal compBeta profileB) = 89
    have hv : adjustedDoseVal compBeta profileB = 891/10 := by
      norm_num [adjustedDoseVal, baseDoseVal, adjustmentFactorVal, adjStep,
        compBeta, profileB]
    rw [hv]
    exact jround_eq (891/10) 89 (by norm_num) (by norm_num)
  have hpow100 : (100 : ℝ) ^ ((9 : ℝ)/10) < 100 := by
    have h := Real.rpow_lt_rpow_of_exponent_lt
      (by norm_num : (1:ℝ) < 100) (by norm_num : (9:ℝ)/10 < 1)
    rwa [Real.rpow_one] at h
  have hpow100nn : (0 : ℝ) ≤ (100 : ℝ) ^ ((9 : ℝ)/10) :=
    Real.rpow_nonneg (by norm_num) _
  have hfA : ["alpha"].filterMap cdA.components = [compAlpha] := by rfl
  have hfB : ["beta"].filterMap cdB.components = [compBeta] := by rfl
  have hvA : adjustedDoseVal compAlpha profileA = 80 := by
    norm_num [adjustedDoseVal, baseDoseVal, adjustmentFactorVal, adjStep,
      compAlpha, profileA]
  have hvB : adjustedDoseVal compBeta profileB = 891/10 := by
    norm_num [adjustedDoseVal, baseDoseVal, adjustmentFactorVal, adjStep,
      compBeta, profileB]
  constructor
  · have hclaim : c1ClaimedMetric cdA ["alpha"] profileA (fun d => d.tgfReduction) = 100 := by
      unfold c1ClaimedMetric
      rw [hfA]
      simp only [List.map_cons, List.map_nil, List.prod_cons, List.prod_nil]
      rw [hvA]
      norm_num [compAlpha, profileA]
    have hcode : (calculateOverallEffectiveness pcA ["alpha"] [] profileA).tgfReduction =
        max 0 (min 100 ((100 : ℝ) ^ ((9 : ℝ)/10) * (17/20))) := by
      have h1 : (calculateOverallEffectiveness pcA ["alpha"] [] profileA).tgfReduction =
          aggregateMetricSpec cdA ["alpha"] [] profileA (fun d => d.tgfReduction) :=
        aggregateMetric_eq_spec cdA ["alpha"] [] profileA (fun d => d.tgfReduction)
      rw [h1]
      unfold aggregateMetricSpec blendSynergyFactorSpec
      rw [hfA]
      simp only [List.map_cons, List.map_nil, List.prod_cons, List.prod_nil]
      rw [hdoseA]
      norm_num [compAlpha, profileA]
    rw [hclaim, hcode]
    have hlt : (100 : ℝ) ^ ((9 : ℝ)/10) * (17/20) < 85 := by nlinarith
    have hnn : (0 : ℝ) ≤ (100 : ℝ) ^ ((9 : ℝ)/10) * (17/20) := by positivity
    rw [min_eq_right (by linarith), max_eq_right hnn]
    push_cast
    intro hcontra
    linarith [hcontra.symm.le]
  · have hcode : (calculateOverallEffectiveness pcB ["beta"] [] profileB).tgfReduction =
        max 0 (min 100 ((4450/81 : ℝ) ^ ((9 : ℝ)/10) * (17/20))) := by
      have h1 : (calculateOverallEffectiveness pcB ["beta"] [] profileB).tgfReduction =
          aggregateMetricSpec cdB ["beta"] [] profileB (fun d => d.tgfReduction) :=
        aggregateMetric_eq_spec cdB ["beta"] [] profileB (fun d => d.tgfReduction)
      rw [h1]
      unfold aggregateMetricSpec blendSynergyFactorSpec
      rw [hfB]
      simp only [List.map_cons, List.map_nil, List.prod_cons, List.prod_nil]
      rw [hdoseB]
      norm_num [compBeta, profileB]
    have hunrounded : c1BlendedUnroundedMetric cdB ["beta"] [] profileB (fun d => d.tgfReduction) =
        max 0 (min 100 ((55 : ℝ) ^ ((9 : ℝ)/10) * (17/20))) := by
      unfold c1BlendedUnroundedMetric blendSynergyFactorSpec
      rw [hfB]
      simp only [List.map_cons, List.map_nil, List.prod_cons, List.prod_nil]
      rw [hvB]
      norm_num [compBeta, profileB]
    have hmono : (4450/81 : ℝ) ^ ((9 : ℝ)/10) < (55 : ℝ) ^ ((9 : ℝ)/10) :=
      Real.rpow_lt_rpow (by norm_num) (by norm_num) (by norm_num)
    have h55 : (55 : ℝ) ^ ((9 : ℝ)/10) < 55 := by
      have h := Real.rpow_lt_rpow_of_exponent_lt
        (by norm_num : (1:ℝ) < 55) (by norm_num : (9:ℝ)/10 < 1)
      rwa [Real.rpow_one] at h
    have hnnB : (0 : ℝ) ≤ (4450/81 : ℝ) ^ ((9 : ℝ)/10) :=
      Real.rpow_nonneg (by norm_num) _
    have hnn55 : (0 : ℝ) ≤ (55 : ℝ) ^ ((9 : ℝ)/10) :=
      Real.rpow_nonneg (by norm_num) _
    rw [hcode, hunrounded]
    rw [min_eq_right (by nlinarith), max_eq_right (by positivity),
      min_eq_right (by nlinarith), max_eq_right (by positivity)]
    have : (4450/81 : ℝ) ^ ((9 : ℝ)/10) * (17/20) <
        (55 : ℝ) ^ ((9 : ℝ)/10) * (17/20) := by nlinarith
    exact ne_of_lt this

/-- C2 (amended): the returned `effectiveness.overallSuccessRate` equals
`min(100, clamp(0, 95, successBase * coverageRatio *
(0.9 + 0.1 (synergyBoost − 1)/0.6) − penalty) * stageMultiplier)`: the
synergy term carries NO inner clamp (it drops below 0.9 when the boost is
below 1), and the stage multiplier is applied to the response potential
exactly as to the five metrics, capped at 100 — so the returned value can
reach 100, not 95. `synergyBoost` is the product of `min(factor, 1.5)` over
all found synergies (a zero factor counts as 1), capped at 1.6; coverage
defaults to 0.5 without a core list; the liver penalty requires a non-empty
non-normal value. -/
theorem c2_overall_success_rate_amended :
    ∀ (pc : Calculator) (p : PatientProfile) (sel : List String)
      (st : StageProtocol),
      pc.ready = true →
      pc.stagesData.stageProtocols p.stage = some st →
      (calculateDosing pc p sel).map (fun r => r.effectiveness.overallSuccessRate) =
        .ok (min
          (((responsePotentialSpec pc.stagesData pc.interactionsData sel p : ℚ) : ℝ) *
            stageMultiplierSpec pc.stagesData p.stage sel p) 100) := by
  intro pc p sel st hr hst
  obtain ⟨recs, hrec⟩ : ∃ recs,
      getRecommendations pc.stagesData p.stage (some p) = .ok recs := by
    unfold getRecommendations
    rw [hst]
    exact ⟨_, rfl⟩
  rw [calculateDosing_eq_ok pc p sel recs hr hrec]
  dsimp only [Except.map]
  rw [calculateStageSpecificEffectiveness_osr pc.stagesData p.stage sel _ p st hst]
  have hosr : (calculateOverallEffectiveness pc sel
        (calculateSynergies pc.interactionsData sel) p).overallSuccessRate =
      ((responsePotentialSpec pc.stagesData pc.interactionsData sel p : ℚ) : ℝ) := by
    show ((responsePotentialVal pc.stagesData sel
      (calculateSynergies pc.interactionsData sel) p : ℚ) : ℝ) = _
    exact_mod_cast responsePotentialVal_eq_spec pc.stagesData pc.interactionsData sel p
  rw [hosr]

/-- C2 amended witness: a calculator on the calcified stage with an empty
selection. -/
theorem c2_overall_success_rate_amended_witness :
    pcCalcified.ready = true ∧
    pcCalcified.stagesData.stageProtocols profCalcified.stage = some stCalcified ∧
    (calculateDosing pcCalcified profCalcified []).map
        (fun r => r.effectiveness.overallSuccessRate) =
      .ok (min
        (((responsePotentialSpec pcCalcified.stagesData pcCalcified.interactionsData
            [] profCalcified : ℚ) : ℝ) *
          stageMultiplierSpec pcCalcified.stagesData profCalcified.stage [] profCalcified)
        100) :=
  ⟨rfl, rfl,
   c2_overall_success_rate_amended pcCalcified profCalcified [] stCalcified rfl rfl⟩

/-- C2 counterexample. Scenario 1 (store with chronic success base 90, full
core coverage, one moderate synergy with factor 0.5): the code returns
84.525 while the claimed formula (inner clamp, no stage multiplier on the
response potential) predicts 81 — the unclamped synergy term drops the
pre-stage value to 73.5 and the chronic multiplier 1.15 is then applied to
it. Scenario 2 (success base 95, synergy boost capped at 1.6): the returned
overallSuccessRate is 100, exceeding the claimed bound of 95. -/
theorem c2_counterexample :
    (calculateDosing pcC2a profC2 ["a", "b"]).map
        (fun r => r.effectiveness.overallSuccessRate) = .ok ((3381/40 : ℝ)) ∧
    c2ClaimedSuccessRate sdChronic90 idataHalf ["a", "b"] profC2 = 81 ∧
    ((3381/40 : ℝ)) ≠ (((81 : ℚ) : ℝ)) ∧
    (calculateDosing pcC2b profC2 ["a", "b", "c"]).map
        (fun r => r.effectiveness.overallSuccessRate) = .ok ((100 : ℝ)) ∧
    (95 : ℝ) < 100 := by
  have hst1 : pcC2a.stagesData.stageProtocols profC2.stage = some stChronic90 := rfl
  have hst2 : pcC2b.stagesData.stageProtocols profC2.stage = some stChronic95 := rfl
  have hresp1 : responsePotentialVal pcC2a.stagesData ["a", "b"]
      (calculateSynergies pcC2a.interactionsData ["a", "b"]) profC2 = 147/2 := by
    simp [responsePotentialVal, calculateSynergies, listPairs, processInteraction,
      numOptTruthy, idataHalf, pcC2a, sdChronic90, stChronic90, profC2, jsOrOne]
    norm_num
  have hresp2 : responsePotentialVal pcC2b.stagesData ["a", "b", "c"]
      (calculateSynergies pcC2b.interactionsData ["a", "b", "c"]) profC2 = 95 := by
    simp [responsePotentialVal, calculateSynergies, listPairs, processInteraction,
      numOptTruthy, idataBoost, pcC2b, sdChronic95, stChronic95, profC2, jsOrOne]
    norm_num
  have hmult1 : stageMultiplierSpec pcC2a.stagesData profC2.stage ["a", "b"] profC2 = 1.15 := by
    simp [stageMultiplierSpec, calcChronicStageMultiplier, pcC2a, sdChronic90,
      stChronic90, profC2]
    norm_num
  have hmult2 : stageMultiplierSpec pcC2b.stagesData profC2.stage ["a", "b", "c"] profC2 = 1.15 := by
    simp [stageMultiplierSpec, calcChronicStageMultiplier, pcC2b, sdChronic95,
      stChronic95, profC2]
    norm_num
  refine ⟨?_, ?_, ?_, ?_, by norm_num⟩
  · obtain ⟨recs1, hrec1⟩ : ∃ recs,
        getRecommendations pcC2a.stagesData profC2.stage (some profC2) = .ok recs :=
      ⟨_, rfl⟩
    rw [calculateDosing_eq_ok pcC2a profC2 ["a", "b"] recs1 rfl hrec1]
    dsimp only [Except.map]
    rw [calculateStageSpecificEffectiveness_osr pcC2a.stagesData profC2.stage
      ["a", "b"] _ profC2 stChronic90 hst1]
    have hosr1 : (calculateOverallEffectiveness pcC2a ["a", "b"]
        (calculateSynergies pcC2a.interactionsData ["a", "b"]) profC2).overallSuccessRate =
        ((147/2 : ℚ) : ℝ) := by
      show ((responsePotentialVal pcC2a.stagesData ["a", "b"]
        (calculateSynergies pcC2a.interactionsData ["a", "b"]) profC2 : ℚ) : ℝ) = _
      exact_mod_cast hresp1
    rw [hosr1, hmult1]
    simp only [Except.ok.injEq]
    push_cast
    rw [min_eq_left (by norm_num)]
    norm_num
  · simp [c2ClaimedSuccessRate, calculateSynergies, listPairs, processInteraction,
      numOptTruthy, idataHalf, sdChronic90, stChronic90, profC2]
    norm_num
  · push_cast
    norm_num
  · obtain ⟨recs2, hrec2⟩ : ∃ recs,
        getRecommendations pcC2b.stagesData profC2.stage (some profC2) = .ok recs :=
      ⟨_, rfl⟩
    rw [calculateDosing_eq_ok pcC2b profC2 ["a", "b", "c"] recs2 rfl hrec2]
    dsimp only [Except.map]
    rw [calculateStageSpecificEffectiveness_osr pcC2b.stagesData profC2.stage
      ["a", "b", "c"] _ profC2 stChronic95 hst2]
    have hosr2 : (calculateOverallEffectiveness pcC2b ["a", "b", "c"]
        (calculateSynergies pcC2b.interactionsData ["a", "b", "c"]) profC2).overallSuccessRate =
        ((95 : ℚ) : ℝ) := by
      show ((responsePotentialVal pcC2b.stagesData ["a", "b", "c"]
        (calculateSynergies pcC2b.interactionsData ["a", "b", "c"]) profC2 : ℚ) : ℝ) = _
      exact_mod_cast hresp2
    rw [hosr2, hmult2]
    simp only [Except.ok.injEq]
    push_cast
    rw [min_eq_right (by norm_num)]

/-- C7 witness: the 0.3-0.7 range hypothesis is satisfiable at 0.7. -/
theorem c7_ci_buckets_witness :
    ((3/10 : ℚ) < 7/10 ∧ (7/10 : ℚ) ≤ 7/10) ∧ ciBucketKey (7/10) = "0.3-0.7" :=
  ⟨⟨by norm_num, by norm_num⟩,
   (c7_ci_buckets.2.1 (7/10)).2.2.1 ⟨by norm_num, by norm_num⟩⟩

end IPP
